import Mathlib

/-!
Verification of the AVI/MJPEG recorder of `recording_handler.cpp`
(`RecordingHandler`): header emission, frame append, finalization and the
startup repair scan, shallowly embedded over byte lists.

Files are modelled as `List Nat` of octets (each element is one `uint8_t`
of the file).  The 32-bit machine integers of the C++ code (`uint32_t`
fields such as `_totalBytes`, `pos`, chunk sizes) are modelled as `Nat`
with explicit reduction modulo `2^32` at each arithmetic step where the
C++ type is 32 bits wide.
-/

namespace RecordingHandler

/-- `2^32`, the modulus of `uint32_t` arithmetic. -/
def M32 : Nat := 4294967296

/-- Little-endian encoding of a 32-bit value, as in `write32LE` /
`seekAndWrite32LE`: bytes `v, v>>8, v>>16, v>>24`, each truncated to
`uint8_t`. -/
def le32 (v : Nat) : List Nat :=
  [v % 256, v / 256 % 256, v / 65536 % 256, v / 16777216 % 256]

/-- Little-endian encoding of a 16-bit value, as in `write16LE`. -/
def le16 (v : Nat) : List Nat :=
  [v % 256, v / 256 % 256]

/-- Decoding of 4 little-endian bytes at `off`, as in the reads of
`tryRepairAVI`: `buf[0] | buf[1]<<8 | buf[2]<<16 | buf[3]<<24`.
On octets (< 256) bitwise-or coincides with addition. -/
def readLE32 (l : List Nat) (off : Nat) : Nat :=
  l.getD off 0 + 256 * l.getD (off + 1) 0 + 65536 * l.getD (off + 2) 0
    + 16777216 * l.getD (off + 3) 0

/-- Overwriting 4 bytes in place at `off` with the little-endian encoding
of `v` (`seek(off); write(buf,4)` on a file opened without truncation). -/
def setLE32 (l : List Nat) (off v : Nat) : List Nat :=
  ((((l.set off (v % 256)).set (off + 1) (v / 256 % 256)).set
      (off + 2) (v / 65536 % 256)).set (off + 3) (v / 16777216 % 256))

/-- `uint32_t` subtraction `a - b` (wrapping), for `a, b < 2^32`. -/
def sub32 (a b : Nat) : Nat := (a + (M32 - b % M32)) % M32

/-- The four-character code "RIFF" as bytes. -/
def fccRIFF : List Nat := [82, 73, 70, 70]

/-- The four-character code "AVI " as bytes. -/
def fccAVIsp : List Nat := [65, 86, 73, 32]

/-- The four-character code "LIST" as bytes. -/
def fccLIST : List Nat := [76, 73, 83, 84]

/-- The four-character code "hdrl" as bytes. -/
def fccHdrl : List Nat := [104, 100, 114, 108]

/-- The four-character code "avih" as bytes. -/
def fccAvih : List Nat := [97, 118, 105, 104]

/-- The four-character code "strl" as bytes. -/
def fccStrl : List Nat := [115, 116, 114, 108]

/-- The four-character code "strh" as bytes. -/
def fccStrh : List Nat := [115, 116, 114, 104]

/-- The four-character code "vids" as bytes. -/
def fccVids : List Nat := [118, 105, 100, 115]

/-- The four-character code "MJPG" as bytes. -/
def fccMJPG : List Nat := [77, 74, 80, 71]

/-- The four-character code "strf" as bytes. -/
def fccStrf : List Nat := [115, 116, 114, 102]

/-- The four-character code "movi" as bytes. -/
def fccMovi : List Nat := [109, 111, 118, 105]

/-- The four-character code "00dc" (video-data chunk tag) as bytes. -/
def fcc00dc : List Nat := [48, 48, 100, 99]

/-- The four-character code "idx1" as bytes. -/
def fccIdx1 : List Nat := [105, 100, 120, 49]

-- ### Generic byte-list lemmas

theorem getD_append_lt (a b : List Nat) (k : Nat) (h : k < a.length) :
    (a ++ b).getD k 0 = a.getD k 0 := by
  simp only [List.getD, List.get?_eq_getElem?]
  rw [List.getElem?_append_left h]

theorem getD_append_ge (a b : List Nat) (k : Nat) (h : a.length ≤ k) :
    (a ++ b).getD k 0 = b.getD (k - a.length) 0 := by
  simp only [List.getD, List.get?_eq_getElem?]
  rw [List.getElem?_append_right h]

theorem getD_append_add (a b : List Nat) (k : Nat) :
    (a ++ b).getD (a.length + k) 0 = b.getD k 0 := by
  rw [getD_append_ge a b _ (Nat.le_add_right _ _), Nat.add_sub_cancel_left]

theorem getD_drop (l : List Nat) (p k : Nat) :
    (l.drop p).getD k 0 = l.getD (p + k) 0 := by
  simp only [List.getD, List.get?_eq_getElem?]
  rw [List.getElem?_drop]

theorem readLE32_drop (l : List Nat) (p k : Nat) :
    readLE32 (l.drop p) k = readLE32 l (p + k) := by
  unfold readLE32
  have e1 : p + (k + 1) = p + k + 1 := by omega
  have e2 : p + (k + 2) = p + k + 2 := by omega
  have e3 : p + (k + 3) = p + k + 3 := by omega
  rw [getD_drop, getD_drop, getD_drop, getD_drop, e1, e2, e3]

theorem readLE32_append_add (a b : List Nat) (k : Nat) :
    readLE32 (a ++ b) (a.length + k) = readLE32 b k := by
  unfold readLE32
  have e1 : a.length + k + 1 = a.length + (k + 1) := by omega
  have e2 : a.length + k + 2 = a.length + (k + 2) := by omega
  have e3 : a.length + k + 3 = a.length + (k + 3) := by omega
  rw [e1, e2, e3, getD_append_add, getD_append_add, getD_append_add,
    getD_append_add]

theorem readLE32_append_lt (a b : List Nat) (k : Nat) (h : k + 4 ≤ a.length) :
    readLE32 (a ++ b) k = readLE32 a k := by
  unfold readLE32
  rw [getD_append_lt a b k (by omega), getD_append_lt a b (k+1) (by omega),
    getD_append_lt a b (k+2) (by omega), getD_append_lt a b (k+3) (by omega)]

theorem le32_digits_recompose (v : Nat) :
    v % 256 + 256 * (v / 256 % 256) + 65536 * (v / 65536 % 256)
      + 16777216 * (v / 16777216 % 256) = v % 4294967296 := by
  omega

theorem le32_decode (v : Nat) (rest : List Nat) :
    readLE32 (le32 v ++ rest) 0 = v % M32 := by
  show v % 256 + 256 * (v / 256 % 256) + 65536 * (v / 65536 % 256)
      + 16777216 * (v / 16777216 % 256) = v % 4294967296
  omega

theorem getD_set_self (l : List Nat) (i b : Nat) (h : i < l.length) :
    (l.set i b).getD i 0 = b := by
  simp only [List.getD, List.get?_eq_getElem?]
  rw [List.getElem?_set_self h]
  rfl

theorem getD_set_ne (l : List Nat) (i j b : Nat) (h : i ≠ j) :
    (l.set i b).getD j 0 = l.getD j 0 := by
  simp only [List.getD, List.get?_eq_getElem?]
  rw [List.getElem?_set_ne h]

theorem length_setLE32 (l : List Nat) (off v : Nat) :
    (setLE32 l off v).length = l.length := by
  simp [setLE32]

theorem getD_setLE32_ne (l : List Nat) (off v j : Nat)
    (h : j < off ∨ off + 3 < j) :
    (setLE32 l off v).getD j 0 = l.getD j 0 := by
  unfold setLE32
  rw [getD_set_ne _ _ _ _ (by omega), getD_set_ne _ _ _ _ (by omega),
    getD_set_ne _ _ _ _ (by omega), getD_set_ne _ _ _ _ (by omega)]

theorem getD_setLE32_self0 (l : List Nat) (off v : Nat) (h : off < l.length) :
    (setLE32 l off v).getD off 0 = v % 256 := by
  unfold setLE32
  rw [getD_set_ne _ _ _ _ (by omega), getD_set_ne _ _ _ _ (by omega),
    getD_set_ne _ _ _ _ (by omega), getD_set_self _ _ _ h]

theorem getD_setLE32_self1 (l : List Nat) (off v : Nat)
    (h : off + 1 < l.length) :
    (setLE32 l off v).getD (off + 1) 0 = v / 256 % 256 := by
  unfold setLE32
  rw [getD_set_ne _ _ _ _ (by omega), getD_set_ne _ _ _ _ (by omega),
    getD_set_self _ _ _ (by simpa using h)]

theorem getD_setLE32_self2 (l : List Nat) (off v : Nat)
    (h : off + 2 < l.length) :
    (setLE32 l off v).getD (off + 2) 0 = v / 65536 % 256 := by
  unfold setLE32
  rw [getD_set_ne _ _ _ _ (by omega), getD_set_self _ _ _ (by simpa using h)]

theorem getD_setLE32_self3 (l : List Nat) (off v : Nat)
    (h : off + 3 < l.length) :
    (setLE32 l off v).getD (off + 3) 0 = v / 16777216 % 256 := by
  unfold setLE32
  rw [getD_set_self _ _ _ (by simpa using h)]

theorem readLE32_setLE32_self (l : List Nat) (off v : Nat)
    (h : off + 4 ≤ l.length) :
    readLE32 (setLE32 l off v) off = v % M32 := by
  unfold readLE32
  rw [getD_setLE32_self0 _ _ _ (by omega), getD_setLE32_self1 _ _ _ (by omega),
    getD_setLE32_self2 _ _ _ (by omega), getD_setLE32_self3 _ _ _ (by omega)]
  exact le32_digits_recompose v

theorem readLE32_setLE32_disjoint (l : List Nat) (off v off' : Nat)
    (h : off' + 4 ≤ off ∨ off + 4 ≤ off') :
    readLE32 (setLE32 l off v) off' = readLE32 l off' := by
  unfold readLE32
  rw [getD_setLE32_ne _ _ _ _ (by omega), getD_setLE32_ne _ _ _ _ (by omega),
    getD_setLE32_ne _ _ _ _ (by omega), getD_setLE32_ne _ _ _ _ (by omega)]

theorem readLE32_cons_succ (a : Nat) (l : List Nat) (k : Nat) :
    readLE32 (a :: l) (k + 1) = readLE32 l k := by
  unfold readLE32
  have e3 : k + 1 + 2 = (k + 2) + 1 := by omega
  have e4 : k + 1 + 3 = (k + 3) + 1 := by omega
  rw [e3, e4, List.getD_cons_succ, List.getD_cons_succ, List.getD_cons_succ,
    List.getD_cons_succ]

theorem readLE32_skip4 (c l : List Nat) (hc : c.length = 4) (k : Nat) :
    readLE32 (c ++ l) (4 + k) = readLE32 l k := by
  have h := readLE32_append_add c l k
  rw [hc] at h
  exact h

theorem readLE32_skip4i (c l : List Nat) (hc : c.length = 4) (i j : Nat)
    (hij : i = 4 + j) : readLE32 (c ++ l) i = readLE32 l j := by
  rw [hij]
  exact readLE32_skip4 c l hc j

-- ### The recorder state

/-- One entry of the in-memory frame index (`FrameEntry` in the C++ class):
chunk offset relative to the start of movi data, and JPEG payload size. -/
structure FrameEntry where
  offset : Nat
  size : Nat
deriving DecidableEq

/-- The mutable state of `RecordingHandler`.  `file` holds the bytes of
the currently open AVI file (the filesystem content behind `_aviFile`);
the other fields mirror the private members of the C++ class.  The
`frameIndex` is `none` when the index allocation failed (`_frameIndex ==
nullptr`). -/
structure Recorder where
  isRecording : Bool
  fps : Nat
  frameInterval : Nat
  startTime : Nat
  lastFrameTime : Nat
  frameCount : Nat
  currentFilename : String
  file : List Nat
  riffSizeOffset : Nat
  aviFramesOffset : Nat
  strhFramesOffset : Nat
  moviListSizeOffset : Nat
  totalBytes : Nat
  width : Nat
  height : Nat
  frameIndex : Option (List FrameEntry)
  maxFrames : Nat
deriving DecidableEq

/-- The constructor-initialised recorder (`RecordingHandler::RecordingHandler`). -/
def initRecorder : Recorder where
  isRecording := false
  fps := 10
  frameInterval := 100
  startTime := 0
  lastFrameTime := 0
  frameCount := 0
  currentFilename := ""
  file := []
  riffSizeOffset := 0
  aviFramesOffset := 0
  strhFramesOffset := 0
  moviListSizeOffset := 0
  totalBytes := 0
  width := 0
  height := 0
  frameIndex := none
  maxFrames := 0

-- ### Binary write helpers (`write32LE`, `write16LE`, `writeFCC`)

/-- The common effect of every sequential write helper: append `b` to the
open file and add `n` to `_totalBytes` (`uint32_t` addition). -/
def emit (s : Recorder) (b : List Nat) (n : Nat) : Recorder :=
  { s with file := s.file ++ b, totalBytes := (s.totalBytes + n) % M32 }

theorem emit_isRecording (s : Recorder) (b : List Nat) (n : Nat) :
    (emit s b n).isRecording = s.isRecording := rfl

theorem emit_fps (s : Recorder) (b : List Nat) (n : Nat) :
    (emit s b n).fps = s.fps := rfl

theorem emit_frameInterval (s : Recorder) (b : List Nat) (n : Nat) :
    (emit s b n).frameInterval = s.frameInterval := rfl

theorem emit_startTime (s : Recorder) (b : List Nat) (n : Nat) :
    (emit s b n).startTime = s.startTime := rfl

theorem emit_lastFrameTime (s : Recorder) (b : List Nat) (n : Nat) :
    (emit s b n).lastFrameTime = s.lastFrameTime := rfl

theorem emit_frameCount (s : Recorder) (b : List Nat) (n : Nat) :
    (emit s b n).frameCount = s.frameCount := rfl

theorem emit_currentFilename (s : Recorder) (b : List Nat) (n : Nat) :
    (emit s b n).currentFilename = s.currentFilename := rfl

theorem emit_file (s : Recorder) (b : List Nat) (n : Nat) :
    (emit s b n).file = s.file ++ b := rfl

theorem emit_riffSizeOffset (s : Recorder) (b : List Nat) (n : Nat) :
    (emit s b n).riffSizeOffset = s.riffSizeOffset := rfl

theorem emit_aviFramesOffset (s : Recorder) (b : List Nat) (n : Nat) :
    (emit s b n).aviFramesOffset = s.aviFramesOffset := rfl

theorem emit_strhFramesOffset (s : Recorder) (b : List Nat) (n : Nat) :
    (emit s b n).strhFramesOffset = s.strhFramesOffset := rfl

theorem emit_moviListSizeOffset (s : Recorder) (b : List Nat) (n : Nat) :
    (emit s b n).moviListSizeOffset = s.moviListSizeOffset := rfl

theorem emit_totalBytes (s : Recorder) (b : List Nat) (n : Nat) :
    (emit s b n).totalBytes = (s.totalBytes + n) % M32 := rfl

theorem emit_width (s : Recorder) (b : List Nat) (n : Nat) :
    (emit s b n).width = s.width := rfl

theorem emit_height (s : Recorder) (b : List Nat) (n : Nat) :
    (emit s b n).height = s.height := rfl

theorem emit_frameIndex (s : Recorder) (b : List Nat) (n : Nat) :
    (emit s b n).frameIndex = s.frameIndex := rfl

theorem emit_maxFrames (s : Recorder) (b : List Nat) (n : Nat) :
    (emit s b n).maxFrames = s.maxFrames := rfl

attribute [simp] emit_isRecording emit_fps emit_frameInterval emit_startTime
  emit_lastFrameTime emit_frameCount emit_currentFilename emit_file
  emit_riffSizeOffset emit_aviFramesOffset emit_strhFramesOffset
  emit_moviListSizeOffset emit_totalBytes emit_width emit_height
  emit_frameIndex emit_maxFrames

/-- `write32LE`: append 4 little-endian bytes and add 4 to `_totalBytes`. -/
def write32LE (s : Recorder) (v : Nat) : Recorder := emit s (le32 v) 4

/-- `write16LE`: append 2 little-endian bytes and add 2 to `_totalBytes`. -/
def write16LE (s : Recorder) (v : Nat) : Recorder := emit s (le16 v) 2

/-- `writeFCC`: append a four-character code and add 4 to `_totalBytes`. -/
def writeFCC (s : Recorder) (fcc : List Nat) : Recorder := emit s fcc 4

/-- A raw `_aviFile.write(data, len)` immediately followed by
`_totalBytes += len`, as done for the frame payload and the pad byte in
`writeFrame`. -/
def writeBytes (s : Recorder) (d : List Nat) : Recorder := emit s d d.length

-- ### Header emission (`writeAVIHeader`)

/-- Capture of `_riffSizeOffset = _totalBytes` right after the RIFF tag. -/
def captureRiff (s : Recorder) : Recorder :=
  { s with riffSizeOffset := s.totalBytes }

/-- Capture of `_aviFramesOffset = _totalBytes` (offset 48). -/
def captureAvi (s : Recorder) : Recorder :=
  { s with aviFramesOffset := s.totalBytes }

/-- Capture of `_strhFramesOffset = _totalBytes` (offset 140). -/
def captureStrh (s : Recorder) : Recorder :=
  { s with strhFramesOffset := s.totalBytes }

/-- Capture of `_moviListSizeOffset = _totalBytes` (offset 216). -/
def captureMovi (s : Recorder) : Recorder :=
  { s with moviListSizeOffset := s.totalBytes }

theorem captureRiff_isRecording (s : Recorder) :
    (captureRiff s).isRecording = s.isRecording := rfl

theorem captureRiff_fps (s : Recorder) :
    (captureRiff s).fps = s.fps := rfl

theorem captureRiff_frameInterval (s : Recorder) :
    (captureRiff s).frameInterval = s.frameInterval := rfl

theorem captureRiff_startTime (s : Recorder) :
    (captureRiff s).startTime = s.startTime := rfl

theorem captureRiff_lastFrameTime (s : Recorder) :
    (captureRiff s).lastFrameTime = s.lastFrameTime := rfl

theorem captureRiff_frameCount (s : Recorder) :
    (captureRiff s).frameCount = s.frameCount := rfl

theorem captureRiff_currentFilename (s : Recorder) :
    (captureRiff s).currentFilename = s.currentFilename := rfl

theorem captureRiff_file (s : Recorder) :
    (captureRiff s).file = s.file := rfl

theorem captureRiff_riffSizeOffset (s : Recorder) :
    (captureRiff s).riffSizeOffset = s.totalBytes := rfl

theorem captureRiff_aviFramesOffset (s : Recorder) :
    (captureRiff s).aviFramesOffset = s.aviFramesOffset := rfl

theorem captureRiff_strhFramesOffset (s : Recorder) :
    (captureRiff s).strhFramesOffset = s.strhFramesOffset := rfl

theorem captureRiff_moviListSizeOffset (s : Recorder) :
    (captureRiff s).moviListSizeOffset = s.moviListSizeOffset := rfl

theorem captureRiff_totalBytes (s : Recorder) :
    (captureRiff s).totalBytes = s.totalBytes := rfl

theorem captureRiff_width (s : Recorder) :
    (captureRiff s).width = s.width := rfl

theorem captureRiff_height (s : Recorder) :
    (captureRiff s).height = s.height := rfl

theorem captureRiff_frameIndex (s : Recorder) :
    (captureRiff s).frameIndex = s.frameIndex := rfl

theorem captureRiff_maxFrames (s : Recorder) :
    (captureRiff s).maxFrames = s.maxFrames := rfl

attribute [simp] captureRiff_isRecording captureRiff_fps captureRiff_frameInterval captureRiff_startTime captureRiff_lastFrameTime captureRiff_frameCount captureRiff_currentFilename captureRiff_file captureRiff_riffSizeOffset captureRiff_aviFramesOffset captureRiff_strhFramesOffset captureRiff_moviListSizeOffset captureRiff_totalBytes captureRiff_width captureRiff_height captureRiff_frameIndex captureRiff_maxFrames

theorem captureAvi_isRecording (s : Recorder) :
    (captureAvi s).isRecording = s.isRecording := rfl

theorem captureAvi_fps (s : Recorder) :
    (captureAvi s).fps = s.fps := rfl

theorem captureAvi_frameInterval (s : Recorder) :
    (captureAvi s).frameInterval = s.frameInterval := rfl

theorem captureAvi_startTime (s : Recorder) :
    (captureAvi s).startTime = s.startTime := rfl

theorem captureAvi_lastFrameTime (s : Recorder) :
    (captureAvi s).lastFrameTime = s.lastFrameTime := rfl

theorem captureAvi_frameCount (s : Recorder) :
    (captureAvi s).frameCount = s.frameCount := rfl

theorem captureAvi_currentFilename (s : Recorder) :
    (captureAvi s).currentFilename = s.currentFilename := rfl

theorem captureAvi_file (s : Recorder) :
    (captureAvi s).file = s.file := rfl

theorem captureAvi_riffSizeOffset (s : Recorder) :
    (captureAvi s).riffSizeOffset = s.riffSizeOffset := rfl

theorem captureAvi_aviFramesOffset (s : Recorder) :
    (captureAvi s).aviFramesOffset = s.totalBytes := rfl

theorem captureAvi_strhFramesOffset (s : Recorder) :
    (captureAvi s).strhFramesOffset = s.strhFramesOffset := rfl

theorem captureAvi_moviListSizeOffset (s : Recorder) :
    (captureAvi s).moviListSizeOffset = s.moviListSizeOffset := rfl

theorem captureAvi_totalBytes (s : Recorder) :
    (captureAvi s).totalBytes = s.totalBytes := rfl

theorem captureAvi_width (s : Recorder) :
    (captureAvi s).width = s.width := rfl

theorem captureAvi_height (s : Recorder) :
    (captureAvi s).height = s.height := rfl

theorem captureAvi_frameIndex (s : Recorder) :
    (captureAvi s).frameIndex = s.frameIndex := rfl

theorem captureAvi_maxFrames (s : Recorder) :
    (captureAvi s).maxFrames = s.maxFrames := rfl

attribute [simp] captureAvi_isRecording captureAvi_fps captureAvi_frameInterval captureAvi_startTime captureAvi_lastFrameTime captureAvi_frameCount captureAvi_currentFilename captureAvi_file captureAvi_riffSizeOffset captureAvi_aviFramesOffset captureAvi_strhFramesOffset captureAvi_moviListSizeOffset captureAvi_totalBytes captureAvi_width captureAvi_height captureAvi_frameIndex captureAvi_maxFrames

theorem captureStrh_isRecording (s : Recorder) :
    (captureStrh s).isRecording = s.isRecording := rfl

theorem captureStrh_fps (s : Recorder) :
    (captureStrh s).fps = s.fps := rfl

theorem captureStrh_frameInterval (s : Recorder) :
    (captureStrh s).frameInterval = s.frameInterval := rfl

theorem captureStrh_startTime (s : Recorder) :
    (captureStrh s).startTime = s.startTime := rfl

theorem captureStrh_lastFrameTime (s : Recorder) :
    (captureStrh s).lastFrameTime = s.lastFrameTime := rfl

theorem captureStrh_frameCount (s : Recorder) :
    (captureStrh s).frameCount = s.frameCount := rfl

theorem captureStrh_currentFilename (s : Recorder) :
    (captureStrh s).currentFilename = s.currentFilename := rfl

theorem captureStrh_file (s : Recorder) :
    (captureStrh s).file = s.file := rfl

theorem captureStrh_riffSizeOffset (s : Recorder) :
    (captureStrh s).riffSizeOffset = s.riffSizeOffset := rfl

theorem captureStrh_aviFramesOffset (s : Recorder) :
    (captureStrh s).aviFramesOffset = s.aviFramesOffset := rfl

theorem captureStrh_strhFramesOffset (s : Recorder) :
    (captureStrh s).strhFramesOffset = s.totalBytes := rfl

theorem captureStrh_moviListSizeOffset (s : Recorder) :
    (captureStrh s).moviListSizeOffset = s.moviListSizeOffset := rfl

theorem captureStrh_totalBytes (s : Recorder) :
    (captureStrh s).totalBytes = s.totalBytes := rfl

theorem captureStrh_width (s : Recorder) :
    (captureStrh s).width = s.width := rfl

theorem captureStrh_height (s : Recorder) :
    (captureStrh s).height = s.height := rfl

theorem captureStrh_frameIndex (s : Recorder) :
    (captureStrh s).frameIndex = s.frameIndex := rfl

theorem captureStrh_maxFrames (s : Recorder) :
    (captureStrh s).maxFrames = s.maxFrames := rfl

attribute [simp] captureStrh_isRecording captureStrh_fps captureStrh_frameInterval captureStrh_startTime captureStrh_lastFrameTime captureStrh_frameCount captureStrh_currentFilename captureStrh_file captureStrh_riffSizeOffset captureStrh_aviFramesOffset captureStrh_strhFramesOffset captureStrh_moviListSizeOffset captureStrh_totalBytes captureStrh_width captureStrh_height captureStrh_frameIndex captureStrh_maxFrames

theorem captureMovi_isRecording (s : Recorder) :
    (captureMovi s).isRecording = s.isRecording := rfl

theorem captureMovi_fps (s : Recorder) :
    (captureMovi s).fps = s.fps := rfl

theorem captureMovi_frameInterval (s : Recorder) :
    (captureMovi s).frameInterval = s.frameInterval := rfl

theorem captureMovi_startTime (s : Recorder) :
    (captureMovi s).startTime = s.startTime := rfl

theorem captureMovi_lastFrameTime (s : Recorder) :
    (captureMovi s).lastFrameTime = s.lastFrameTime := rfl

theorem captureMovi_frameCount (s : Recorder) :
    (captureMovi s).frameCount = s.frameCount := rfl

theorem captureMovi_currentFilename (s : Recorder) :
    (captureMovi s).currentFilename = s.currentFilename := rfl

theorem captureMovi_file (s : Recorder) :
    (captureMovi s).file = s.file := rfl

theorem captureMovi_riffSizeOffset (s : Recorder) :
    (captureMovi s).riffSizeOffset = s.riffSizeOffset := rfl

theorem captureMovi_aviFramesOffset (s : Recorder) :
    (captureMovi s).aviFramesOffset = s.aviFramesOffset := rfl

theorem captureMovi_strhFramesOffset (s : Recorder) :
    (captureMovi s).strhFramesOffset = s.strhFramesOffset := rfl

theorem captureMovi_moviListSizeOffset (s : Recorder) :
    (captureMovi s).moviListSizeOffset = s.totalBytes := rfl

theorem captureMovi_totalBytes (s : Recorder) :
    (captureMovi s).totalBytes = s.totalBytes := rfl

theorem captureMovi_width (s : Recorder) :
    (captureMovi s).width = s.width := rfl

theorem captureMovi_height (s : Recorder) :
    (captureMovi s).height = s.height := rfl

theorem captureMovi_frameIndex (s : Recorder) :
    (captureMovi s).frameIndex = s.frameIndex := rfl

theorem captureMovi_maxFrames (s : Recorder) :
    (captureMovi s).maxFrames = s.maxFrames := rfl

attribute [simp] captureMovi_isRecording captureMovi_fps captureMovi_frameInterval captureMovi_startTime captureMovi_lastFrameTime captureMovi_frameCount captureMovi_currentFilename captureMovi_file captureMovi_riffSizeOffset captureMovi_aviFramesOffset captureMovi_strhFramesOffset captureMovi_moviListSizeOffset captureMovi_totalBytes captureMovi_width captureMovi_height captureMovi_frameIndex captureMovi_maxFrames


/-- Header bytes 4..47: RIFF size placeholder through the avih flags,
ending right before the `dwTotalFrames` placeholder. -/
def headerSegB (s : Recorder) (usPerFrame maxBytesPerSec : Nat) : Recorder :=
  let s := write32LE s 0
  let s := writeFCC s fccAVIsp
  let s := writeFCC s fccLIST
  let s := write32LE s 192
  let s := writeFCC s fccHdrl
  let s := writeFCC s fccAvih
  let s := write32LE s 56
  let s := write32LE s usPerFrame
  let s := write32LE s maxBytesPerSec
  let s := write32LE s 0
  write32LE s 16

/-- Header bytes 48..139: `dwTotalFrames` placeholder through `dwStart`,
ending right before the strh `dwLength` placeholder. -/
def headerSegC (s : Recorder) (maxBytesPerSec width height fps : Nat) :
    Recorder :=
  let s := write32LE s 0
  let s := write32LE s 0
  let s := write32LE s 1
  let s := write32LE s maxBytesPerSec
  let s := write32LE s width
  let s := write32LE s height
  let s := write32LE s 0
  let s := write32LE s 0
  let s := write32LE s 0
  let s := write32LE s 0
  let s := writeFCC s fccLIST
  let s := write32LE s 116
  let s := writeFCC s fccStrl
  let s := writeFCC s fccStrh
  let s := write32LE s 56
  let s := writeFCC s fccVids
  let s := writeFCC s fccMJPG
  let s := write32LE s 0
  let s := write16LE s 0
  let s := write16LE s 0
  let s := write32LE s 0
  let s := write32LE s 1
  let s := write32LE s fps
  write32LE s 0

/-- Header bytes 140..215: strh `dwLength` placeholder through the second
LIST tag, ending right before the movi LIST size placeholder. -/
def headerSegD (s : Recorder) (maxBytesPerSec width height : Nat) :
    Recorder :=
  let s := write32LE s 0
  let s := write32LE s maxBytesPerSec
  let s := write32LE s 4294967295
  let s := write32LE s 0
  let s := write16LE s 0
  let s := write16LE s 0
  let s := write16LE s width
  let s := write16LE s height
  let s := writeFCC s fccStrf
  let s := write32LE s 40
  let s := write32LE s 40
  let s := write32LE s width
  let s := write32LE s height
  let s := write16LE s 1
  let s := write16LE s 24
  let s := writeFCC s fccMJPG
  let s := write32LE s (width * height * 3)
  let s := write32LE s 0
  let s := write32LE s 0
  let s := write32LE s 0
  let s := write32LE s 0
  writeFCC s fccLIST

/-- `writeAVIHeader`: emits the fixed 224-byte RIFF/AVI header in source
order and records the four patch offsets (`_riffSizeOffset`,
`_aviFramesOffset`, `_strhFramesOffset`, `_moviListSizeOffset`) from the
running `_totalBytes`.  `usPerFrame = 1000000UL / fps` is C unsigned
division (the caller clamps `fps` to [1,15], so it is never zero);
`maxBytesPerSec = fps * 15000UL` in `uint32_t`. -/
def writeAVIHeader (s : Recorder) (width height fps : Nat) : Recorder :=
  let usPerFrame := 1000000 / fps
  let maxBytesPerSec := (fps * 15000) % M32
  writeFCC
    (write32LE
      (captureMovi
        (headerSegD
          (captureStrh
            (headerSegC
              (captureAvi
                (headerSegB
                  (captureRiff (writeFCC s fccRIFF))
                  usPerFrame maxBytesPerSec))
              maxBytesPerSec width height fps))
          maxBytesPerSec width height))
      0)
    fccMovi

-- ### Per-segment header lemmas

theorem headerSegB_file (s : Recorder) (us mb : Nat) :
    (headerSegB s us mb).file = s.file
      ++ (le32 0 ++ fccAVIsp ++ fccLIST ++ le32 192 ++ fccHdrl ++ fccAvih
        ++ le32 56 ++ le32 us ++ le32 mb ++ le32 0 ++ le32 16) := by
  simp [headerSegB, write32LE, writeFCC]

theorem headerSegB_totalBytes (s : Recorder) (us mb : Nat) :
    (headerSegB s us mb).totalBytes = (s.totalBytes + 44) % M32 := by
  simp [headerSegB, write32LE, writeFCC, M32]

theorem headerSegB_misc (s : Recorder) (us mb : Nat) :
    (headerSegB s us mb).isRecording = s.isRecording ∧
    (headerSegB s us mb).fps = s.fps ∧
    (headerSegB s us mb).frameInterval = s.frameInterval ∧
    (headerSegB s us mb).startTime = s.startTime ∧
    (headerSegB s us mb).lastFrameTime = s.lastFrameTime ∧
    (headerSegB s us mb).frameCount = s.frameCount ∧
    (headerSegB s us mb).currentFilename = s.currentFilename ∧
    (headerSegB s us mb).riffSizeOffset = s.riffSizeOffset ∧
    (headerSegB s us mb).aviFramesOffset = s.aviFramesOffset ∧
    (headerSegB s us mb).strhFramesOffset = s.strhFramesOffset ∧
    (headerSegB s us mb).moviListSizeOffset = s.moviListSizeOffset ∧
    (headerSegB s us mb).width = s.width ∧
    (headerSegB s us mb).height = s.height ∧
    (headerSegB s us mb).frameIndex = s.frameIndex ∧
    (headerSegB s us mb).maxFrames = s.maxFrames := by
  simp [headerSegB, write32LE, writeFCC]

theorem headerSegC_file (s : Recorder) (mb w h fps : Nat) :
    (headerSegC s mb w h fps).file = s.file
      ++ (le32 0 ++ le32 0 ++ le32 1 ++ le32 mb ++ le32 w ++ le32 h
        ++ le32 0 ++ le32 0 ++ le32 0 ++ le32 0
        ++ fccLIST ++ le32 116 ++ fccStrl ++ fccStrh ++ le32 56
        ++ fccVids ++ fccMJPG ++ le32 0 ++ le16 0 ++ le16 0
        ++ le32 0 ++ le32 1 ++ le32 fps ++ le32 0) := by
  simp [headerSegC, write32LE, write16LE, writeFCC]

theorem headerSegC_totalBytes (s : Recorder) (mb w h fps : Nat) :
    (headerSegC s mb w h fps).totalBytes = (s.totalBytes + 92) % M32 := by
  simp [headerSegC, write32LE, write16LE, writeFCC, M32]

theorem headerSegC_misc (s : Recorder) (mb w h fps : Nat) :
    (headerSegC s mb w h fps).isRecording = s.isRecording ∧
    (headerSegC s mb w h fps).fps = s.fps ∧
    (headerSegC s mb w h fps).frameInterval = s.frameInterval ∧
    (headerSegC s mb w h fps).startTime = s.startTime ∧
    (headerSegC s mb w h fps).lastFrameTime = s.lastFrameTime ∧
    (headerSegC s mb w h fps).frameCount = s.frameCount ∧
    (headerSegC s mb w h fps).currentFilename = s.currentFilename ∧
    (headerSegC s mb w h fps).riffSizeOffset = s.riffSizeOffset ∧
    (headerSegC s mb w h fps).aviFramesOffset = s.aviFramesOffset ∧
    (headerSegC s mb w h fps).strhFramesOffset = s.strhFramesOffset ∧
    (headerSegC s mb w h fps).moviListSizeOffset = s.moviListSizeOffset ∧
    (headerSegC s mb w h fps).width = s.width ∧
    (headerSegC s mb w h fps).height = s.height ∧
    (headerSegC s mb w h fps).frameIndex = s.frameIndex ∧
    (headerSegC s mb w h fps).maxFrames = s.maxFrames := by
  simp [headerSegC, write32LE, write16LE, writeFCC]

theorem headerSegD_file (s : Recorder) (mb w h : Nat) :
    (headerSegD s mb w h).file = s.file
      ++ (le32 0 ++ le32 mb ++ le32 4294967295 ++ le32 0
        ++ le16 0 ++ le16 0 ++ le16 w ++ le16 h
        ++ fccStrf ++ le32 40 ++ le32 40 ++ le32 w ++ le32 h
        ++ le16 1 ++ le16 24 ++ fccMJPG ++ le32 (w * h * 3)
        ++ le32 0 ++ le32 0 ++ le32 0 ++ le32 0 ++ fccLIST) := by
  simp [headerSegD, write32LE, write16LE, writeFCC]

theorem headerSegD_totalBytes (s : Recorder) (mb w h : Nat) :
    (headerSegD s mb w h).totalBytes = (s.totalBytes + 76) % M32 := by
  simp [headerSegD, write32LE, write16LE, writeFCC, M32]

theorem headerSegD_misc (s : Recorder) (mb w h : Nat) :
    (headerSegD s mb w h).isRecording = s.isRecording ∧
    (headerSegD s mb w h).fps = s.fps ∧
    (headerSegD s mb w h).frameInterval = s.frameInterval ∧
    (headerSegD s mb w h).startTime = s.startTime ∧
    (headerSegD s mb w h).lastFrameTime = s.lastFrameTime ∧
    (headerSegD s mb w h).frameCount = s.frameCount ∧
    (headerSegD s mb w h).currentFilename = s.currentFilename ∧
    (headerSegD s mb w h).riffSizeOffset = s.riffSizeOffset ∧
    (headerSegD s mb w h).aviFramesOffset = s.aviFramesOffset ∧
    (headerSegD s mb w h).strhFramesOffset = s.strhFramesOffset ∧
    (headerSegD s mb w h).moviListSizeOffset = s.moviListSizeOffset ∧
    (headerSegD s mb w h).width = s.width ∧
    (headerSegD s mb w h).height = s.height ∧
    (headerSegD s mb w h).frameIndex = s.frameIndex ∧
    (headerSegD s mb w h).maxFrames = s.maxFrames := by
  simp [headerSegD, write32LE, write16LE, writeFCC]

-- ### Frame append (`writeFrame`)

/-- `writeFrame`: record the frame's `(offset, size)` in the index when
the index exists and capacity remains (`_frameCount < _maxFrames`), emit
the `00dc` chunk tag, the little-endian payload length, the payload, and
one zero pad byte when the payload length is odd, then increment
`_frameCount`.  The index offset is `_totalBytes - 224` in `uint32_t`. -/
def writeFrame (s : Recorder) (data : List Nat) : Recorder :=
  let s :=
    match s.frameIndex with
    | some idx =>
        if s.frameCount < s.maxFrames then
          { s with frameIndex := some (idx ++
              [{ offset := sub32 s.totalBytes 224,
                 size := data.length % M32 }]) }
        else s
    | none => s
  let s := writeFCC s fcc00dc
  let s := write32LE s data.length
  let s := writeBytes s data
  let s := if data.length % 2 ≠ 0 then writeBytes s [0] else s
  { s with frameCount := s.frameCount + 1 }

-- ### Derived descriptions of what the writer appends

/-- The bytes `writeFrame` appends for a payload `data`: tag, length,
payload, and the conditional pad byte. -/
def chunkBytes (data : List Nat) : List Nat :=
  fcc00dc ++ le32 data.length ++ data
    ++ (if data.length % 2 ≠ 0 then [0] else [])

/-- The on-disk footprint of one frame chunk: `8 + sᵢ + (sᵢ % 2)`. -/
def chunkSpan (data : List Nat) : Nat := 8 + data.length + data.length % 2

/-- The movi payload produced by a sequence of frame appends. -/
def moviBytes (frames : List (List Nat)) : List Nat :=
  (frames.map chunkBytes).flatten

/-- `Σᵢ (8 + sᵢ + (sᵢ % 2))` over a sequence of frame payloads. -/
def frameSum (frames : List (List Nat)) : Nat :=
  (frames.map chunkSpan).sum

theorem chunkBytes_length (d : List Nat) :
    (chunkBytes d).length = chunkSpan d := by
  by_cases h : d.length % 2 = 0 <;>
    simp [chunkBytes, chunkSpan, fcc00dc, le32, h] <;> omega

theorem moviBytes_length (frames : List (List Nat)) :
    (moviBytes frames).length = frameSum frames := by
  induction frames with
  | nil => simp [moviBytes, frameSum]
  | cons d rest ih =>
      simp [moviBytes, frameSum] at ih ⊢
      simp [chunkBytes_length d, ih]

theorem moviBytes_cons (d : List Nat) (frames : List (List Nat)) :
    moviBytes (d :: frames) = chunkBytes d ++ moviBytes frames := by
  simp [moviBytes]

-- ### Basic `writeFrame` lemmas

theorem writeFrame_file (s : Recorder) (d : List Nat) :
    (writeFrame s d).file = s.file ++ chunkBytes d := by
  cases h : s.frameIndex with
  | none =>
      by_cases hp : d.length % 2 = 0 <;>
        simp [writeFrame, h, hp, writeFCC, write32LE, writeBytes, chunkBytes]
  | some idx =>
      by_cases hc : s.frameCount < s.maxFrames <;>
        by_cases hp : d.length % 2 = 0 <;>
          simp [writeFrame, h, hc, hp, writeFCC, write32LE, writeBytes,
            chunkBytes]

theorem writeFrame_totalBytes (s : Recorder) (d : List Nat) :
    (writeFrame s d).totalBytes = (s.totalBytes + chunkSpan d) % M32 := by
  have key : ∀ t : Nat,
      (if d.length % 2 ≠ 0
        then (((((t + 4) % M32 + 4) % M32 + d.length) % M32 + 1) % M32)
        else (((t + 4) % M32 + 4) % M32 + d.length) % M32)
      = (t + chunkSpan d) % M32 := by
    intro t
    by_cases hp : d.length % 2 = 0 <;> simp [hp, chunkSpan, M32] <;> omega
  cases h : s.frameIndex with
  | none =>
      by_cases hp : d.length % 2 = 0 <;>
        simpa [writeFrame, h, hp, writeFCC, write32LE, writeBytes]
          using by simpa [hp] using key s.totalBytes
  | some idx =>
      by_cases hc : s.frameCount < s.maxFrames <;>
        by_cases hp : d.length % 2 = 0 <;>
          simpa [writeFrame, h, hc, hp, writeFCC, write32LE, writeBytes]
            using by simpa [hp] using key s.totalBytes

theorem writeFrame_frameCount (s : Recorder) (d : List Nat) :
    (writeFrame s d).frameCount = s.frameCount + 1 := by
  cases h : s.frameIndex with
  | none =>
      by_cases hp : d.length % 2 = 0 <;>
        simp [writeFrame, h, hp, writeFCC, write32LE, writeBytes]
  | some idx =>
      by_cases hc : s.frameCount < s.maxFrames <;>
        by_cases hp : d.length % 2 = 0 <;>
          simp [writeFrame, h, hc, hp, writeFCC, write32LE, writeBytes]

theorem writeFrame_frameIndex (s : Recorder) (d : List Nat) :
    (writeFrame s d).frameIndex =
      match s.frameIndex with
      | some idx =>
          if s.frameCount < s.maxFrames then
            some (idx ++ [{ offset := sub32 s.totalBytes 224,
                            size := d.length % M32 }])
          else some idx
      | none => none := by
  cases h : s.frameIndex with
  | none =>
      by_cases hp : d.length % 2 = 0 <;>
        simp [writeFrame, h, hp, writeFCC, write32LE, writeBytes]
  | some idx =>
      by_cases hc : s.frameCount < s.maxFrames <;>
        by_cases hp : d.length % 2 = 0 <;>
          simp [writeFrame, h, hc, hp, writeFCC, write32LE, writeBytes]

theorem writeFrame_misc (s : Recorder) (d : List Nat) :
    (writeFrame s d).isRecording = s.isRecording ∧
    (writeFrame s d).fps = s.fps ∧
    (writeFrame s d).frameInterval = s.frameInterval ∧
    (writeFrame s d).startTime = s.startTime ∧
    (writeFrame s d).lastFrameTime = s.lastFrameTime ∧
    (writeFrame s d).currentFilename = s.currentFilename ∧
    (writeFrame s d).riffSizeOffset = s.riffSizeOffset ∧
    (writeFrame s d).aviFramesOffset = s.aviFramesOffset ∧
    (writeFrame s d).strhFramesOffset = s.strhFramesOffset ∧
    (writeFrame s d).moviListSizeOffset = s.moviListSizeOffset ∧
    (writeFrame s d).width = s.width ∧
    (writeFrame s d).height = s.height ∧
    (writeFrame s d).maxFrames = s.maxFrames := by
  cases h : s.frameIndex with
  | none =>
      by_cases hp : d.length % 2 = 0 <;>
        simp [writeFrame, h, hp, writeFCC, write32LE, writeBytes]
  | some idx =>
      by_cases hc : s.frameCount < s.maxFrames <;>
        by_cases hp : d.length % 2 = 0 <;>
          simp [writeFrame, h, hc, hp, writeFCC, write32LE, writeBytes]

-- ### Session pipeline: header then frames

/-- The recorder right after `startRecording` has reset the counters,
allocated (or failed to allocate) the index, and emitted the header —
the point where frame data starts being appended. -/
def sessionBase (width height fps : Nat) (withIndex : Bool) : Recorder :=
  writeAVIHeader
    { initRecorder with
        fps := fps
        frameInterval := 1000 / fps
        frameCount := 0
        totalBytes := 0
        file := []
        width := width
        height := height
        frameIndex := if withIndex then some [] else none
        maxFrames := 300 * fps + 10 }
    width height fps

/-- The recorder after the header and a sequence of `writeFrame` calls. -/
def stateAfter (width height fps : Nat) (withIndex : Bool)
    (frames : List (List Nat)) : Recorder :=
  frames.foldl writeFrame (sessionBase width height fps withIndex)

/-- The 224 header bytes, laid out as the sequence of writes of
`writeAVIHeader`. -/
def headerBytes (width height fps : Nat) : List Nat :=
  fccRIFF ++ le32 0 ++ fccAVIsp
    ++ fccLIST ++ le32 192 ++ fccHdrl
    ++ fccAvih ++ le32 56
    ++ le32 (1000000 / fps) ++ le32 ((fps * 15000) % M32)
    ++ le32 0 ++ le32 16
    ++ le32 0 ++ le32 0 ++ le32 1 ++ le32 ((fps * 15000) % M32)
    ++ le32 width ++ le32 height
    ++ le32 0 ++ le32 0 ++ le32 0 ++ le32 0
    ++ fccLIST ++ le32 116 ++ fccStrl
    ++ fccStrh ++ le32 56
    ++ fccVids ++ fccMJPG ++ le32 0
    ++ le16 0 ++ le16 0 ++ le32 0 ++ le32 1 ++ le32 fps ++ le32 0
    ++ le32 0 ++ le32 ((fps * 15000) % M32) ++ le32 4294967295 ++ le32 0
    ++ le16 0 ++ le16 0 ++ le16 width ++ le16 height
    ++ fccStrf ++ le32 40
    ++ le32 40 ++ le32 width ++ le32 height
    ++ le16 1 ++ le16 24 ++ fccMJPG ++ le32 (width * height * 3)
    ++ le32 0 ++ le32 0 ++ le32 0 ++ le32 0
    ++ fccLIST ++ le32 0 ++ fccMovi

theorem sessionBase_file (width height fps : Nat) (withIndex : Bool) :
    (sessionBase width height fps withIndex).file =
      headerBytes width height fps := by
  simp [sessionBase, writeAVIHeader, headerBytes, headerSegB_file,
    headerSegC_file, headerSegD_file, write32LE, writeFCC, initRecorder]

set_option maxRecDepth 10000 in
theorem headerBytes_length (width height fps : Nat) :
    (headerBytes width height fps).length = 224 := by
  simp [headerBytes, le32, le16, fccRIFF, fccAVIsp, fccLIST, fccHdrl,
    fccAvih, fccStrl, fccStrh, fccVids, fccMJPG, fccStrf, fccMovi]

theorem sessionBase_fields (width height fps : Nat) (withIndex : Bool) :
    (sessionBase width height fps withIndex).totalBytes = 224 ∧
    (sessionBase width height fps withIndex).riffSizeOffset = 4 ∧
    (sessionBase width height fps withIndex).aviFramesOffset = 48 ∧
    (sessionBase width height fps withIndex).strhFramesOffset = 140 ∧
    (sessionBase width height fps withIndex).moviListSizeOffset = 216 ∧
    (sessionBase width height fps withIndex).frameCount = 0 ∧
    (sessionBase width height fps withIndex).maxFrames = 300 * fps + 10 ∧
    (sessionBase width height fps withIndex).frameIndex
      = (if withIndex then some [] else none) := by
  refine ⟨?_, ?_, ?_, ?_, ?_, ?_, ?_, ?_⟩ <;>
    simp [sessionBase, writeAVIHeader, headerSegB_totalBytes,
      headerSegC_totalBytes, headerSegD_totalBytes, headerSegB_misc, headerSegC_misc, headerSegD_misc, write32LE,
      writeFCC, initRecorder, M32]

-- ### Header field readback

theorem headerBytes_read_usPerFrame (width height fps : Nat) :
    readLE32 (headerBytes width height fps) 32 = (1000000 / fps) % M32 := by
  unfold headerBytes
  simp only [List.append_assoc]
  rw [readLE32_skip4i (fccRIFF) _ rfl 32 28 rfl]
  rw [readLE32_skip4i (le32 0) _ rfl 28 24 rfl]
  rw [readLE32_skip4i (fccAVIsp) _ rfl 24 20 rfl]
  rw [readLE32_skip4i (fccLIST) _ rfl 20 16 rfl]
  rw [readLE32_skip4i (le32 192) _ rfl 16 12 rfl]
  rw [readLE32_skip4i (fccHdrl) _ rfl 12 8 rfl]
  rw [readLE32_skip4i (fccAvih) _ rfl 8 4 rfl]
  rw [readLE32_skip4i (le32 56) _ rfl 4 0 rfl]
  exact le32_decode _ _

theorem headerBytes_read_maxBps (width height fps : Nat) :
    readLE32 (headerBytes width height fps) 36
      = (fps * 15000) % M32 % M32 := by
  unfold headerBytes
  simp only [List.append_assoc]
  rw [readLE32_skip4i (fccRIFF) _ rfl 36 32 rfl]
  rw [readLE32_skip4i (le32 0) _ rfl 32 28 rfl]
  rw [readLE32_skip4i (fccAVIsp) _ rfl 28 24 rfl]
  rw [readLE32_skip4i (fccLIST) _ rfl 24 20 rfl]
  rw [readLE32_skip4i (le32 192) _ rfl 20 16 rfl]
  rw [readLE32_skip4i (fccHdrl) _ rfl 16 12 rfl]
  rw [readLE32_skip4i (fccAvih) _ rfl 12 8 rfl]
  rw [readLE32_skip4i (le32 56) _ rfl 8 4 rfl]
  rw [readLE32_skip4i (le32 (1000000 / fps)) _ rfl 4 0 rfl]
  exact le32_decode _ _

theorem headerBytes_read_totalFrames (width height fps : Nat) :
    readLE32 (headerBytes width height fps) 48 = 0 := by
  unfold headerBytes
  simp only [List.append_assoc]
  rw [readLE32_skip4i (fccRIFF) _ rfl 48 44 rfl]
  rw [readLE32_skip4i (le32 0) _ rfl 44 40 rfl]
  rw [readLE32_skip4i (fccAVIsp) _ rfl 40 36 rfl]
  rw [readLE32_skip4i (fccLIST) _ rfl 36 32 rfl]
  rw [readLE32_skip4i (le32 192) _ rfl 32 28 rfl]
  rw [readLE32_skip4i (fccHdrl) _ rfl 28 24 rfl]
  rw [readLE32_skip4i (fccAvih) _ rfl 24 20 rfl]
  rw [readLE32_skip4i (le32 56) _ rfl 20 16 rfl]
  rw [readLE32_skip4i (le32 (1000000 / fps)) _ rfl 16 12 rfl]
  rw [readLE32_skip4i (le32 (fps * 15000 % M32)) _ rfl 12 8 rfl]
  rw [readLE32_skip4i (le32 0) _ rfl 8 4 rfl]
  rw [readLE32_skip4i (le32 16) _ rfl 4 0 rfl]
  rw [le32_decode]
  simp [M32]

-- ### Folding `writeFrame` over a frame sequence

theorem foldl_writeFrame_file (frames : List (List Nat)) (s : Recorder) :
    (frames.foldl writeFrame s).file = s.file ++ moviBytes frames := by
  induction frames generalizing s with
  | nil => simp [moviBytes]
  | cons d rest ih =>
      simp [List.foldl_cons, ih (writeFrame s d), writeFrame_file,
        moviBytes_cons]

theorem foldl_writeFrame_totalBytes (frames : List (List Nat)) (s : Recorder)
    (h : s.totalBytes < M32) :
    (frames.foldl writeFrame s).totalBytes
      = (s.totalBytes + frameSum frames) % M32 := by
  induction frames generalizing s with
  | nil => simpa [frameSum] using (Nat.mod_eq_of_lt h).symm
  | cons d rest ih =>
      rw [List.foldl_cons, ih (writeFrame s d) (by
        rw [writeFrame_totalBytes]
        exact Nat.mod_lt _ (by norm_num [M32]))]
      rw [writeFrame_totalBytes, Nat.mod_add_mod]
      simp [frameSum, chunkSpan]
      ring_nf

theorem foldl_writeFrame_frameCount (frames : List (List Nat))
    (s : Recorder) :
    (frames.foldl writeFrame s).frameCount
      = s.frameCount + frames.length := by
  induction frames generalizing s with
  | nil => simp
  | cons d rest ih =>
      rw [List.foldl_cons, ih (writeFrame s d), writeFrame_frameCount]
      simp only [List.length_cons]
      omega

theorem foldl_writeFrame_misc (frames : List (List Nat)) (s : Recorder) :
    (frames.foldl writeFrame s).isRecording = s.isRecording ∧
    (frames.foldl writeFrame s).fps = s.fps ∧
    (frames.foldl writeFrame s).frameInterval = s.frameInterval ∧
    (frames.foldl writeFrame s).startTime = s.startTime ∧
    (frames.foldl writeFrame s).lastFrameTime = s.lastFrameTime ∧
    (frames.foldl writeFrame s).currentFilename = s.currentFilename ∧
    (frames.foldl writeFrame s).riffSizeOffset = s.riffSizeOffset ∧
    (frames.foldl writeFrame s).aviFramesOffset = s.aviFramesOffset ∧
    (frames.foldl writeFrame s).strhFramesOffset = s.strhFramesOffset ∧
    (frames.foldl writeFrame s).moviListSizeOffset
      = s.moviListSizeOffset ∧
    (frames.foldl writeFrame s).width = s.width ∧
    (frames.foldl writeFrame s).height = s.height ∧
    (frames.foldl writeFrame s).maxFrames = s.maxFrames := by
  induction frames generalizing s with
  | nil => simp
  | cons d rest ih =>
      have h1 := writeFrame_misc s d
      have h2 := ih (writeFrame s d)
      rw [List.foldl_cons]
      exact ⟨h2.1.trans h1.1, h2.2.1.trans h1.2.1,
        h2.2.2.1.trans h1.2.2.1, h2.2.2.2.1.trans h1.2.2.2.1,
        h2.2.2.2.2.1.trans h1.2.2.2.2.1,
        h2.2.2.2.2.2.1.trans h1.2.2.2.2.2.1,
        h2.2.2.2.2.2.2.1.trans h1.2.2.2.2.2.2.1,
        h2.2.2.2.2.2.2.2.1.trans h1.2.2.2.2.2.2.2.1,
        h2.2.2.2.2.2.2.2.2.1.trans h1.2.2.2.2.2.2.2.2.1,
        h2.2.2.2.2.2.2.2.2.2.1.trans h1.2.2.2.2.2.2.2.2.2.1,
        h2.2.2.2.2.2.2.2.2.2.2.1.trans h1.2.2.2.2.2.2.2.2.2.2.1,
        h2.2.2.2.2.2.2.2.2.2.2.2.1.trans h1.2.2.2.2.2.2.2.2.2.2.2.1,
        h2.2.2.2.2.2.2.2.2.2.2.2.2.trans h1.2.2.2.2.2.2.2.2.2.2.2.2⟩

theorem foldl_writeFrame_isSome (frames : List (List Nat)) (s : Recorder) :
    (frames.foldl writeFrame s).frameIndex.isSome
      = s.frameIndex.isSome := by
  induction frames generalizing s with
  | nil => simp
  | cons d rest ih =>
      rw [List.foldl_cons, ih (writeFrame s d), writeFrame_frameIndex]
      cases h : s.frameIndex with
      | none => simp
      | some idx => by_cases hc : s.frameCount < s.maxFrames <;> simp [hc]

-- ### Claim C4: header emission

/-- C4: for every `fps` in [1,15] and every `(width, height)`, the emitted
header carries `dwMicroSecPerFrame = 1000000 / fps` (integer division, at
offset 32 of the avih block) and `dwMaxBytesPerSec = fps * 15000` (offset
36), the four patch offsets are captured at exactly bytes 4, 48, 140 and
216, and the next write position (`_totalBytes`, equal to the emitted byte
count) is exactly 224, where the first frame chunk tag begins. -/
theorem C4_header_emission (width height fps : Nat) (withIndex : Bool)
    (hfps1 : 1 ≤ fps) (hfps15 : fps ≤ 15) :
    readLE32 (sessionBase width height fps withIndex).file 32
        = 1000000 / fps ∧
    readLE32 (sessionBase width height fps withIndex).file 36
        = fps * 15000 ∧
    (sessionBase width height fps withIndex).riffSizeOffset = 4 ∧
    (sessionBase width height fps withIndex).aviFramesOffset = 48 ∧
    (sessionBase width height fps withIndex).strhFramesOffset = 140 ∧
    (sessionBase width height fps withIndex).moviListSizeOffset = 216 ∧
    (sessionBase width height fps withIndex).totalBytes = 224 ∧
    (sessionBase width height fps withIndex).file.length = 224 := by
  obtain ⟨ht, hr, ha, hs, hm, -, -, -⟩ :=
    sessionBase_fields width height fps withIndex
  refine ⟨?_, ?_, hr, ha, hs, hm, ht, ?_⟩
  · rw [sessionBase_file, headerBytes_read_usPerFrame]
    exact Nat.mod_eq_of_lt
      (lt_of_le_of_lt (Nat.div_le_self _ _) (by norm_num [M32]))
  · rw [sessionBase_file, headerBytes_read_maxBps]
    have hlt : fps * 15000 < M32 := by
      have h := Nat.mul_le_mul_right 15000 hfps15
      unfold M32
      omega
    rw [Nat.mod_eq_of_lt hlt, Nat.mod_eq_of_lt hlt]
  · rw [sessionBase_file, headerBytes_length]

/-- Witness for C4 at `width = 640`, `height = 480`, `fps = 10`. -/
theorem C4_header_emission_witness :
    (1 ≤ 10 ∧ (10:Nat) ≤ 15) ∧
    (readLE32 (sessionBase 640 480 10 true).file 32 = 1000000 / 10 ∧
     readLE32 (sessionBase 640 480 10 true).file 36 = 10 * 15000 ∧
     (sessionBase 640 480 10 true).riffSizeOffset = 4 ∧
     (sessionBase 640 480 10 true).aviFramesOffset = 48 ∧
     (sessionBase 640 480 10 true).strhFramesOffset = 140 ∧
     (sessionBase 640 480 10 true).moviListSizeOffset = 216 ∧
     (sessionBase 640 480 10 true).totalBytes = 224 ∧
     (sessionBase 640 480 10 true).file.length = 224) :=
  ⟨⟨by norm_num, by norm_num⟩,
   C4_header_emission 640 480 10 true (by norm_num) (by norm_num)⟩

-- ### Claim C8: the padding law

/-- C8: for every frame appended by `writeFrame`, a single zero pad byte
follows the payload exactly when the payload size is odd; the declared
chunk length stored in the file is the payload length alone (the pad byte
is never included); and the pad byte is counted in the running
`_totalBytes` (which grows by `8 + len + len % 2`). -/
theorem C8_padding (s : Recorder) (d : List Nat) :
    (writeFrame s d).file
      = s.file ++ fcc00dc ++ le32 d.length ++ d
          ++ (if d.length % 2 = 1 then [0] else []) ∧
    readLE32 (writeFrame s d).file (s.file.length + 4) = d.length % M32 ∧
    (writeFrame s d).totalBytes
      = (s.totalBytes + (8 + d.length + d.length % 2)) % M32 := by
  have hpad : (if d.length % 2 ≠ 0 then ([0]:List Nat) else [])
      = (if d.length % 2 = 1 then [0] else []) := by
    by_cases h : d.length % 2 = 0
    · simp [h]
    · have h1 : d.length % 2 = 1 := by omega
      simp [h, h1]
  refine ⟨?_, ?_, ?_⟩
  · rw [writeFrame_file]
    unfold chunkBytes
    rw [hpad]
    simp [List.append_assoc]
  · rw [writeFrame_file]
    unfold chunkBytes
    rw [show s.file.length + 4 = s.file.length + 4 from rfl]
    rw [readLE32_append_add s.file _ 4]
    simp only [List.append_assoc]
    rw [readLE32_skip4i fcc00dc _ rfl 4 0 rfl]
    exact le32_decode _ _
  · rw [writeFrame_totalBytes]
    rfl

-- ### Claim C2: running byte accounting

/-- C2: after the header and `N` frame appends of sizes `s_1..s_N`,
`_totalBytes = 224 + Σᵢ (8 + sᵢ + sᵢ % 2)`, and this counter equals the
true current length of the open file.  Instantiating `frames` with each
prefix of a session's frame sequence gives the property at every point of
the session; the seek-and-patch writes of finalization never touch
`_totalBytes` (and do not change the file length). -/
theorem C2_totalBytes_accounting (width height fps : Nat) (withIndex : Bool)
    (frames : List (List Nat))
    (hfit : 224 + (frames.map (fun d => 8 + d.length + d.length % 2)).sum
        < M32) :
    (stateAfter width height fps withIndex frames).totalBytes
        = 224 + (frames.map (fun d => 8 + d.length + d.length % 2)).sum ∧
    (stateAfter width height fps withIndex frames).totalBytes
        = (stateAfter width height fps withIndex frames).file.length := by
  have hsum : frameSum frames
      = (frames.map (fun d => 8 + d.length + d.length % 2)).sum := rfl
  have hbase := sessionBase_fields width height fps withIndex
  have htb : (stateAfter width height fps withIndex frames).totalBytes
      = 224 + frameSum frames := by
    unfold stateAfter
    rw [foldl_writeFrame_totalBytes _ _
      (by rw [hbase.1]; norm_num [M32]), hbase.1]
    exact Nat.mod_eq_of_lt (by rw [hsum]; exact hfit)
  have hfile : (stateAfter width height fps withIndex frames).file
      = headerBytes width height fps ++ moviBytes frames := by
    unfold stateAfter
    rw [foldl_writeFrame_file, sessionBase_file]
  refine ⟨by rw [htb, hsum], ?_⟩
  rw [htb, hfile]
  simp [headerBytes_length, moviBytes_length, hsum]

/-- Witness for C2 with two frames of sizes 3 and 2 at `fps = 10`. -/
theorem C2_totalBytes_accounting_witness :
    (224 + (([[1,2,3],[4,5]] : List (List Nat)).map
        (fun d => 8 + d.length + d.length % 2)).sum < M32) ∧
    ((stateAfter 640 480 10 true [[1,2,3],[4,5]]).totalBytes
        = 224 + (([[1,2,3],[4,5]] : List (List Nat)).map
            (fun d => 8 + d.length + d.length % 2)).sum ∧
     (stateAfter 640 480 10 true [[1,2,3],[4,5]]).totalBytes
        = (stateAfter 640 480 10 true [[1,2,3],[4,5]]).file.length) :=
  ⟨by norm_num [M32],
   C2_totalBytes_accounting 640 480 10 true [[1,2,3],[4,5]]
     (by norm_num [M32])⟩
-- ### Finalization (`finalizeAVI`)

theorem sub32_small (a b : Nat) (hb : b ≤ a) (ha : a < M32) :
    sub32 a b = a - b := by
  unfold sub32 M32
  have hbM : b % 4294967296 = b := Nat.mod_eq_of_lt (by unfold M32 at ha; omega)
  rw [hbM]
  unfold M32 at ha
  omega

/-- One iteration of the idx1 entry loop of `finalizeAVI`: writes the
chunk tag, the `AVIIF_KEYFRAME` flag (0x10 = 16), and entry `i`'s stored
offset and size.  The C++ loop indexes `_frameIndex[i]` unconditionally,
so when `_frameCount` exceeds the number of recorded entries it reads
past the end of the allocated buffer; the model supplies a default entry
there (the bytes read are indeterminate in C++, their count is not). -/
def idx1Step (entries : List FrameEntry) (st : Recorder) (i : Nat) :
    Recorder :=
  write32LE
    (write32LE
      (write32LE (writeFCC st fcc00dc) 16)
      ((entries.getD i { offset := 0, size := 0 }).offset))
    ((entries.getD i { offset := 0, size := 0 }).size)

/-- The idx1 entry loop of `finalizeAVI`: `for (i = 0; i < _frameCount;
i++)`. -/
def idx1Body (entries : List FrameEntry) (n : Nat) (s : Recorder) :
    Recorder :=
  (List.range n).foldl (idx1Step entries) s

theorem idx1Step_file_length (entries : List FrameEntry) (st : Recorder)
    (i : Nat) :
    (idx1Step entries st i).file.length = st.file.length + 16 := by
  simp [idx1Step, write32LE, writeFCC, le32, fcc00dc]

theorem idx1Step_totalBytes (entries : List FrameEntry) (st : Recorder)
    (i : Nat) :
    (idx1Step entries st i).totalBytes = (st.totalBytes + 16) % M32 := by
  simp [idx1Step, write32LE, writeFCC, M32]

theorem idx1Step_misc (entries : List FrameEntry) (st : Recorder) (i : Nat) :
    (idx1Step entries st i).riffSizeOffset = st.riffSizeOffset ∧
    (idx1Step entries st i).aviFramesOffset = st.aviFramesOffset ∧
    (idx1Step entries st i).strhFramesOffset = st.strhFramesOffset ∧
    (idx1Step entries st i).moviListSizeOffset = st.moviListSizeOffset ∧
    (idx1Step entries st i).frameCount = st.frameCount ∧
    (idx1Step entries st i).frameIndex = st.frameIndex := by
  simp [idx1Step, write32LE, writeFCC]

/-- `finalizeAVI`, on its success path (the close-and-reopen in "r+" mode
succeeds): record `sizeBeforeIdx1 = _totalBytes`, append the idx1 chunk
when an index exists and frames were written, free the index, and patch
the four placeholder fields at the recorded offsets through the reopened
handle (RIFF size = total − 8, movi LIST size = `sizeBeforeIdx1 − 220`,
both frame counts = `_frameCount`; the `uint32_t` casts are absorbed by
the byte-level little-endian encoding).  The patch writes do not touch
`_totalBytes`.  Returns the final on-disk bytes alongside the state. -/
def finalizeAVI (s : Recorder) : Recorder × List Nat :=
  let sizeBeforeIdx1 := s.totalBytes
  let s1 :=
    if s.frameIndex.isSome ∧ 0 < s.frameCount then
      idx1Body (s.frameIndex.getD []) s.frameCount
        (write32LE (writeFCC s fccIdx1) (s.frameCount * 16))
    else s
  let s2 := { s1 with frameIndex := none }
  let totalFileSize := s2.totalBytes
  let patched :=
    setLE32
      (setLE32
        (setLE32
          (setLE32 s2.file s.riffSizeOffset (sub32 totalFileSize 8))
          s.moviListSizeOffset (sub32 sizeBeforeIdx1 220))
        s.aviFramesOffset s.frameCount)
      s.strhFramesOffset s.frameCount
  ({ s2 with file := patched }, patched)

theorem idx1Body_file_length (entries : List FrameEntry) (n : Nat)
    (s : Recorder) :
    (idx1Body entries n s).file.length = s.file.length + 16 * n := by
  induction n with
  | zero => simp [idx1Body]
  | succ m ih =>
      unfold idx1Body at ih ⊢
      rw [List.range_succ, List.foldl_append]
      simp only [List.foldl_cons, List.foldl_nil]
      rw [idx1Step_file_length, ih]
      omega

theorem idx1Body_totalBytes (entries : List FrameEntry) (n : Nat)
    (s : Recorder) (h : s.totalBytes < M32) :
    (idx1Body entries n s).totalBytes = (s.totalBytes + 16 * n) % M32 := by
  induction n with
  | zero => simpa [idx1Body] using (Nat.mod_eq_of_lt h).symm
  | succ m ih =>
      unfold idx1Body at ih ⊢
      rw [List.range_succ, List.foldl_append]
      simp only [List.foldl_cons, List.foldl_nil]
      rw [idx1Step_totalBytes, ih, Nat.mod_add_mod]
      congr 1
      try ring

theorem idx1Body_misc (entries : List FrameEntry) (n : Nat) (s : Recorder) :
    (idx1Body entries n s).riffSizeOffset = s.riffSizeOffset ∧
    (idx1Body entries n s).aviFramesOffset = s.aviFramesOffset ∧
    (idx1Body entries n s).strhFramesOffset = s.strhFramesOffset ∧
    (idx1Body entries n s).moviListSizeOffset = s.moviListSizeOffset ∧
    (idx1Body entries n s).frameCount = s.frameCount ∧
    (idx1Body entries n s).frameIndex = s.frameIndex := by
  induction n with
  | zero => simp [idx1Body]
  | succ m ih =>
      unfold idx1Body at ih ⊢
      rw [List.range_succ, List.foldl_append]
      simp only [List.foldl_cons, List.foldl_nil]
      have hs := idx1Step_misc entries
        ((List.range m).foldl (idx1Step entries) s) m
      exact ⟨hs.1.trans ih.1, hs.2.1.trans ih.2.1, hs.2.2.1.trans ih.2.2.1,
        hs.2.2.2.1.trans ih.2.2.2.1, hs.2.2.2.2.1.trans ih.2.2.2.2.1,
        hs.2.2.2.2.2.trans ih.2.2.2.2.2⟩

theorem finalizeAVI_readback (s : Recorder) (N L : Nat)
    (hidx : s.frameIndex.isSome = true)
    (hfc : s.frameCount = N) (hN : 0 < N)
    (hoffR : s.riffSizeOffset = 4) (hoffA : s.aviFramesOffset = 48)
    (hoffS : s.strhFramesOffset = 140) (hoffM : s.moviListSizeOffset = 216)
    (htb : s.totalBytes = L) (hflen : s.file.length = L)
    (hL : 224 ≤ L) (hfit : L + 8 + 16 * N < M32) :
    (finalizeAVI s).2.length = L + 8 + 16 * N ∧
    readLE32 (finalizeAVI s).2 4 = L + 16 * N ∧
    readLE32 (finalizeAVI s).2 216 = L - 220 ∧
    readLE32 (finalizeAVI s).2 48 = N ∧
    readLE32 (finalizeAVI s).2 140 = N := by
  subst hfc
  have hcond : s.frameIndex.isSome ∧ 0 < s.frameCount :=
    ⟨by simp [hidx], hN⟩
  have hpre_len :
      (write32LE (writeFCC s fccIdx1) (s.frameCount * 16)).file.length
        = s.file.length + 8 := by
    simp [write32LE, writeFCC, le32, fccIdx1]
  have hpre_tb :
      (write32LE (writeFCC s fccIdx1) (s.frameCount * 16)).totalBytes
        = (s.totalBytes + 8) % M32 := by
    simp [write32LE, writeFCC, M32]
  have hG_len :
      (idx1Body (s.frameIndex.getD []) s.frameCount
        (write32LE (writeFCC s fccIdx1) (s.frameCount * 16))).file.length
      = L + 8 + 16 * s.frameCount := by
    rw [idx1Body_file_length, hpre_len, hflen]
  have hG_tb :
      (idx1Body (s.frameIndex.getD []) s.frameCount
        (write32LE (writeFCC s fccIdx1) (s.frameCount * 16))).totalBytes
      = L + 8 + 16 * s.frameCount := by
    rw [idx1Body_totalBytes _ _ _
      (by rw [hpre_tb]; exact Nat.mod_lt _ (by norm_num [M32]))]
    rw [hpre_tb, htb, Nat.mod_add_mod]
    unfold M32 at hfit ⊢
    omega
  simp only [finalizeAVI]
  rw [if_pos hcond]
  simp only [hoffR, hoffA, hoffS, hoffM, htb]
  refine ⟨?_, ?_, ?_, ?_, ?_⟩
  · rw [length_setLE32, length_setLE32, length_setLE32, length_setLE32,
      hG_len]
  · rw [readLE32_setLE32_disjoint _ _ _ _ (by omega),
      readLE32_setLE32_disjoint _ _ _ _ (by omega),
      readLE32_setLE32_disjoint _ _ _ _ (by omega),
      readLE32_setLE32_self _ _ _ (by rw [hG_len]; omega)]
    rw [hG_tb, sub32_small _ _ (by omega) (by unfold M32 at hfit ⊢; omega)]
    unfold M32 at hfit ⊢
    omega
  · rw [readLE32_setLE32_disjoint _ _ _ _ (by omega),
      readLE32_setLE32_disjoint _ _ _ _ (by omega),
      readLE32_setLE32_self _ _ _
        (by rw [length_setLE32, hG_len]; omega)]
    rw [sub32_small _ _ (by omega) (by unfold M32 at hfit ⊢; omega)]
    unfold M32 at hfit ⊢
    omega
  · rw [readLE32_setLE32_disjoint _ _ _ _ (by omega),
      readLE32_setLE32_self _ _ _
        (by rw [length_setLE32, length_setLE32, hG_len]; omega)]
    unfold M32 at hfit ⊢
    omega
  · have hlen140 : 140 + 4
        ≤ (setLE32 (setLE32 (setLE32
            (idx1Body (s.frameIndex.getD []) s.frameCount
              (write32LE (writeFCC s fccIdx1) (s.frameCount * 16))).file
            4 (sub32 (idx1Body (s.frameIndex.getD []) s.frameCount
              (write32LE (writeFCC s fccIdx1)
                (s.frameCount * 16))).totalBytes 8))
            216 (sub32 L 220)) 48 s.frameCount).length := by
      rw [length_setLE32, length_setLE32, length_setLE32, hG_len]
      omega
    rw [readLE32_setLE32_self _ _ _ hlen140]
    unfold M32 at hfit ⊢
    omega

theorem finalizeAVI_readback_noidx (s : Recorder) (N L : Nat)
    (hidx : s.frameIndex.isSome = false)
    (hfc : s.frameCount = N)
    (hoffR : s.riffSizeOffset = 4) (hoffA : s.aviFramesOffset = 48)
    (hoffS : s.strhFramesOffset = 140) (hoffM : s.moviListSizeOffset = 216)
    (htb : s.totalBytes = L) (hflen : s.file.length = L)
    (hL : 224 ≤ L) (hfit : L + 8 + 16 * N < M32) :
    (finalizeAVI s).2.length = L ∧
    readLE32 (finalizeAVI s).2 4 = L - 8 ∧
    readLE32 (finalizeAVI s).2 216 = L - 220 ∧
    readLE32 (finalizeAVI s).2 48 = N ∧
    readLE32 (finalizeAVI s).2 140 = N := by
  subst hfc
  have hcond : ¬ ((s.frameIndex.isSome = true) ∧ 0 < s.frameCount) := by
    intro h
    rw [hidx] at h
    simp at h
  simp only [finalizeAVI]
  rw [if_neg hcond]
  simp only [hoffR, hoffA, hoffS, hoffM, htb]
  refine ⟨?_, ?_, ?_, ?_, ?_⟩
  · rw [length_setLE32, length_setLE32, length_setLE32, length_setLE32]
    exact hflen
  · rw [readLE32_setLE32_disjoint _ _ _ _ (by omega),
      readLE32_setLE32_disjoint _ _ _ _ (by omega),
      readLE32_setLE32_disjoint _ _ _ _ (by omega),
      readLE32_setLE32_self _ _ _ (by rw [hflen]; omega)]
    rw [sub32_small _ _ (by omega) (by unfold M32 at hfit ⊢; omega)]
    unfold M32 at hfit ⊢
    omega
  · rw [readLE32_setLE32_disjoint _ _ _ _ (by omega),
      readLE32_setLE32_disjoint _ _ _ _ (by omega),
      readLE32_setLE32_self _ _ _
        (by rw [length_setLE32, hflen]; omega)]
    rw [sub32_small _ _ (by omega) (by unfold M32 at hfit ⊢; omega)]
    unfold M32 at hfit ⊢
    omega
  · rw [readLE32_setLE32_disjoint _ _ _ _ (by omega),
      readLE32_setLE32_self _ _ _
        (by rw [length_setLE32, length_setLE32, hflen]; omega)]
    unfold M32 at hfit ⊢
    omega
  · rw [readLE32_setLE32_self _ _ _
        (by rw [length_setLE32, length_setLE32, length_setLE32, hflen]
            omega)]
    unfold M32 at hfit ⊢
    omega

-- ### Claim C3: finalize patches the four header fields

/-- C3: for every session with `N > 0` frames — whether or not the frame
index array was allocated — after `finalizeAVI` completes successfully,
reading back the four patched fields of the final file yields: RIFF size
(offset 4) = final total length − 8 (the final length includes the
appended idx1 chunk, if any; no idx1 chunk is appended when the index is
absent); frame-data-list size (offset 216) = bytes accumulated before
the index chunk − 220; and both total-frame-count fields (offsets 48 and
140) = `N`. -/
theorem C3_finalize_patches (width height fps : Nat) (withIndex : Bool)
    (frames : List (List Nat)) (hN : 0 < frames.length)
    (hfit : 232 + frameSum frames + 16 * frames.length < M32) :
    readLE32 (finalizeAVI
        (stateAfter width height fps withIndex frames)).2 4
      = (finalizeAVI
          (stateAfter width height fps withIndex frames)).2.length
          - 8 ∧
    readLE32 (finalizeAVI
        (stateAfter width height fps withIndex frames)).2 216
      = (224 + frameSum frames) - 220 ∧
    readLE32 (finalizeAVI
        (stateAfter width height fps withIndex frames)).2 48
      = frames.length ∧
    readLE32 (finalizeAVI
        (stateAfter width height fps withIndex frames)).2 140
      = frames.length ∧
    (finalizeAVI (stateAfter width height fps withIndex frames)).2.length
      = 224 + frameSum frames
          + (if withIndex then 8 + 16 * frames.length else 0) := by
  have hbase := sessionBase_fields width height fps withIndex
  have hmisc := foldl_writeFrame_misc frames
    (sessionBase width height fps withIndex)
  have h224 : 224 + frameSum frames < M32 := by
    unfold M32 at hfit ⊢
    omega
  have hidxEq :
      (stateAfter width height fps withIndex frames).frameIndex.isSome
        = withIndex := by
    unfold stateAfter
    rw [foldl_writeFrame_isSome, hbase.2.2.2.2.2.2.2]
    cases withIndex <;> rfl
  have hfc : (stateAfter width height fps withIndex frames).frameCount
      = frames.length := by
    unfold stateAfter
    rw [foldl_writeFrame_frameCount, hbase.2.2.2.2.2.1]
    omega
  have hoffR : (stateAfter width height fps withIndex frames).riffSizeOffset
      = 4 := by
    unfold stateAfter
    exact hmisc.2.2.2.2.2.2.1.trans hbase.2.1
  have hoffA : (stateAfter width height fps withIndex frames).aviFramesOffset
      = 48 := by
    unfold stateAfter
    exact hmisc.2.2.2.2.2.2.2.1.trans hbase.2.2.1
  have hoffS : (stateAfter width height fps withIndex frames).strhFramesOffset
      = 140 := by
    unfold stateAfter
    exact hmisc.2.2.2.2.2.2.2.2.1.trans hbase.2.2.2.1
  have hoffM :
      (stateAfter width height fps withIndex frames).moviListSizeOffset
        = 216 := by
    unfold stateAfter
    exact hmisc.2.2.2.2.2.2.2.2.2.1.trans hbase.2.2.2.2.1
  have htb : (stateAfter width height fps withIndex frames).totalBytes
      = 224 + frameSum frames := by
    unfold stateAfter
    rw [foldl_writeFrame_totalBytes _ _ (by rw [hbase.1]; norm_num [M32]),
      hbase.1]
    exact Nat.mod_eq_of_lt h224
  have hflen : (stateAfter width height fps withIndex frames).file.length
      = 224 + frameSum frames := by
    unfold stateAfter
    rw [foldl_writeFrame_file, sessionBase_file]
    simp [headerBytes_length, moviBytes_length]
  cases withIndex with
  | false =>
      obtain ⟨hl, h4, h216, h48, h140⟩ :=
        finalizeAVI_readback_noidx
          (stateAfter width height fps false frames)
          frames.length (224 + frameSum frames) hidxEq hfc hoffR hoffA
          hoffS hoffM htb hflen (by omega)
          (by unfold M32 at hfit ⊢; omega)
      refine ⟨?_, h216, h48, h140, ?_⟩
      · rw [h4, hl]
      · rw [hl]
        show 224 + frameSum frames = 224 + frameSum frames + 0
        omega
  | true =>
      obtain ⟨hl, h4, h216, h48, h140⟩ :=
        finalizeAVI_readback (stateAfter width height fps true frames)
          frames.length (224 + frameSum frames) hidxEq hfc hN hoffR hoffA
          hoffS hoffM htb hflen (by omega)
          (by unfold M32 at hfit ⊢; omega)
      refine ⟨?_, h216, h48, h140, ?_⟩
      · rw [h4, hl]
        omega
      · rw [hl]
        show 224 + frameSum frames + 8 + 16 * frames.length
          = 224 + frameSum frames + (8 + 16 * frames.length)
        omega

/-- Witness for C3 with a two-frame session (sizes 3 and 2), once with
the index present and once without it. -/
theorem C3_finalize_patches_witness :
    (0 < ([[1,2,3],[4,5]] : List (List Nat)).length ∧
     232 + frameSum [[1,2,3],[4,5]]
       + 16 * ([[1,2,3],[4,5]] : List (List Nat)).length < M32) ∧
    (readLE32 (finalizeAVI (stateAfter 640 480 10 true [[1,2,3],[4,5]])).2 4
      = (finalizeAVI (stateAfter 640 480 10 true [[1,2,3],[4,5]])).2.length
          - 8 ∧
     readLE32
        (finalizeAVI (stateAfter 640 480 10 true [[1,2,3],[4,5]])).2 216
      = (224 + frameSum [[1,2,3],[4,5]]) - 220 ∧
     readLE32 (finalizeAVI (stateAfter 640 480 10 true [[1,2,3],[4,5]])).2 48
      = ([[1,2,3],[4,5]] : List (List Nat)).length ∧
     readLE32
        (finalizeAVI (stateAfter 640 480 10 true [[1,2,3],[4,5]])).2 140
      = ([[1,2,3],[4,5]] : List (List Nat)).length ∧
     (finalizeAVI (stateAfter 640 480 10 true [[1,2,3],[4,5]])).2.length
      = 232 + frameSum [[1,2,3],[4,5]]
          + 16 * ([[1,2,3],[4,5]] : List (List Nat)).length) ∧
    (readLE32
        (finalizeAVI (stateAfter 640 480 10 false [[1,2,3],[4,5]])).2 4
      = (finalizeAVI
          (stateAfter 640 480 10 false [[1,2,3],[4,5]])).2.length - 8 ∧
     readLE32
        (finalizeAVI (stateAfter 640 480 10 false [[1,2,3],[4,5]])).2 216
      = (224 + frameSum [[1,2,3],[4,5]]) - 220 ∧
     readLE32
        (finalizeAVI (stateAfter 640 480 10 false [[1,2,3],[4,5]])).2 48
      = ([[1,2,3],[4,5]] : List (List Nat)).length ∧
     readLE32
        (finalizeAVI (stateAfter 640 480 10 false [[1,2,3],[4,5]])).2 140
      = ([[1,2,3],[4,5]] : List (List Nat)).length ∧
     (finalizeAVI (stateAfter 640 480 10 false [[1,2,3],[4,5]])).2.length
      = 224 + frameSum [[1,2,3],[4,5]]) :=
  ⟨⟨by norm_num, by norm_num [frameSum, chunkSpan, M32]⟩,
   C3_finalize_patches 640 480 10 true [[1,2,3],[4,5]] (by norm_num)
     (by norm_num [frameSum, chunkSpan, M32]),
   C3_finalize_patches 640 480 10 false [[1,2,3],[4,5]] (by norm_num)
     (by norm_num [frameSum, chunkSpan, M32])⟩

-- ### Repair of unfinalized files (`tryRepairAVI`)

theorem getD_take_of_lt (l : List Nat) (k n : Nat) (h : k < n) :
    (l.take n).getD k 0 = l.getD k 0 := by
  simp only [List.getD, List.get?_eq_getElem?]
  rw [List.getElem?_take_of_lt h]

theorem readLE32_take (l : List Nat) (k n : Nat) (h : k + 4 ≤ n) :
    readLE32 (l.take n) k = readLE32 l k := by
  unfold readLE32
  rw [getD_take_of_lt _ _ _ (by omega), getD_take_of_lt _ _ _ (by omega),
    getD_take_of_lt _ _ _ (by omega), getD_take_of_lt _ _ _ (by omega)]

/-- The chunk-counting loop of `tryRepairAVI`
(`while (pos + 8 <= fileSize)`), as a fuel-indexed recursion: the fuel
bounds the iteration count (each iteration advances `pos` by at least 8,
so `file.length` iterations always suffice; `tryRepairAVI` passes exactly
that).  `pos` and `chunkSize` are `uint32_t`, hence the explicit `% M32`
on their arithmetic; `fileSize` is the ESP32's 32-bit `size_t`, kept as
the plain list length here (the theorems below constrain files to fit in
32 bits).  The two `f.read(...) != 4` checks appear as the
`min 4 (remaining)` tests; the tag check compares the four bytes read at
`pos` with '0','0','d','c' (48, 48, 100, 99); a chunk whose declared
length runs past the end of the file stops the scan. -/
def scanFrames (file : List Nat) : Nat → Nat → Nat
  | 0, _ => 0
  | fuel + 1, pos =>
    if (pos + 8) % M32 ≤ file.length then
      if min 4 (file.length - pos) = 4 then
        if file.getD pos 0 = 48 ∧ file.getD (pos + 1) 0 = 48
            ∧ file.getD (pos + 2) 0 = 100 ∧ file.getD (pos + 3) 0 = 99 then
          if min 4 (file.length - (pos + 4)) = 4 then
            let chunkSize := readLE32 file (pos + 4)
            if file.length < (pos + 8 + chunkSize) % M32 then 0
            else
              1 + scanFrames file fuel
                (if chunkSize % 2 = 1
                  then ((pos + 8 + chunkSize) % M32 + 1) % M32
                  else (pos + 8 + chunkSize) % M32)
          else 0
        else 0
      else 0
    else 0

/-- Outcome of `tryRepairAVI` on an opened file: deleted because it is
shorter than the fixed 224-byte header; skipped because `dwTotalFrames`
(offset 48) is non-zero, i.e. already finalized; deleted because the scan
found no complete frame; or repaired, carrying the patched bytes and the
scanned frame count. -/
inductive RepairResult where
  | removedTooSmall
  | alreadyFinalized
  | removedNoFrames
  | repaired (patched : List Nat) (frames : Nat)
deriving DecidableEq

/-- The scanned frame count of a repaired file, if any. -/
def repairCount : RepairResult → Option Nat
  | .repaired _ n => some n
  | _ => none

/-- The patched bytes of a repaired file, if any. -/
def repairFile : RepairResult → Option (List Nat)
  | .repaired p _ => some p
  | _ => none

/-- `tryRepairAVI`, for a file that was opened successfully: delete files
shorter than the 224-byte header; skip files whose `dwTotalFrames` field
(offset 48) is non-zero (already finalized); otherwise count complete
`00dc` chunks from offset 224; delete the file when none is found, else
patch RIFF size (offset 4) = size − 8, movi LIST size (offset 216) =
size − 220, and the two frame-count fields (offsets 48 and 140) with the
scanned count (`uint32_t` casts absorbed by the byte-level encoding). -/
def tryRepairAVI (file : List Nat) : RepairResult :=
  if file.length < 224 then .removedTooSmall
  else if readLE32 file 48 ≠ 0 then .alreadyFinalized
  else
    let n := scanFrames file file.length 224
    if n = 0 then .removedNoFrames
    else .repaired
      (setLE32 (setLE32 (setLE32 (setLE32 file 4 (sub32 file.length 8))
        216 (sub32 file.length 220)) 48 n) 140 n) n

/-- The on-disk bytes of an unfinalized recording: header followed by the
frame chunks, exactly what the writer has appended when power is lost
before `finalizeAVI` (see `stateAfter_file_eq`). -/
def unfinalizedFile (width height fps : Nat)
    (frames : List (List Nat)) : List Nat :=
  headerBytes width height fps ++ moviBytes frames

theorem stateAfter_file_eq (width height fps : Nat) (withIndex : Bool)
    (frames : List (List Nat)) :
    (stateAfter width height fps withIndex frames).file
      = unfinalizedFile width height fps frames := by
  unfold stateAfter unfinalizedFile
  rw [foldl_writeFrame_file, sessionBase_file]
theorem frameSum_cons (d : List Nat) (frames : List (List Nat)) :
    frameSum (d :: frames) = chunkSpan d + frameSum frames := by
  simp [frameSum]

theorem frameSum_append (a b : List (List Nat)) :
    frameSum (a ++ b) = frameSum a + frameSum b := by
  simp [frameSum]

theorem moviBytes_append (a b : List (List Nat)) :
    moviBytes (a ++ b) = moviBytes a ++ moviBytes b := by
  simp [moviBytes]

theorem frameSum_lower (frames : List (List Nat)) :
    8 * frames.length ≤ frameSum frames := by
  induction frames with
  | nil => simp [frameSum]
  | cons d rest ih =>
      rw [frameSum_cons]
      simp only [List.length_cons]
      unfold chunkSpan
      omega

theorem chunkSpan_ge (d : List Nat) : 8 + d.length ≤ chunkSpan d := by
  unfold chunkSpan
  omega

theorem scanFrames_stop_end (file : List Nat) (fuel pos : Nat)
    (hpos : file.length < pos + 8) (hfit : pos + 8 < M32) :
    scanFrames file fuel pos = 0 := by
  cases fuel with
  | zero => rfl
  | succ m =>
      unfold scanFrames
      rw [if_neg]
      rw [Nat.mod_eq_of_lt hfit]
      omega

theorem getD_of_drop_cons (file X : List Nat) (pos a b c e : Nat)
    (hdrop : file.drop pos = a :: b :: c :: e :: X) :
    file.getD pos 0 = a ∧ file.getD (pos + 1) 0 = b
      ∧ file.getD (pos + 2) 0 = c ∧ file.getD (pos + 3) 0 = e := by
  have h0 := getD_drop file pos 0
  have h1 := getD_drop file pos 1
  have h2 := getD_drop file pos 2
  have h3 := getD_drop file pos 3
  rw [hdrop] at h0 h1 h2 h3
  simp only [List.getD_cons_zero, List.getD_cons_succ] at h0 h1 h2 h3
  simp only [Nat.add_zero] at h0
  exact ⟨h0.symm, h1.symm, h2.symm, h3.symm⟩

theorem length_of_drop (file X : List Nat) (pos : Nat)
    (hdrop : file.drop pos = X) (hX : 0 < X.length) :
    file.length = pos + X.length := by
  have hlen : (file.drop pos).length = file.length - pos :=
    List.length_drop pos file
  rw [hdrop] at hlen
  by_cases hp : pos ≤ file.length
  · omega
  · exfalso
    have : file.drop pos = [] := List.drop_eq_nil_of_le (by omega)
    rw [this] at hdrop
    rw [← hdrop] at hX
    simp at hX

theorem readLE32_of_drop (file X : List Nat) (pos n : Nat)
    (hdrop : file.drop pos = fcc00dc ++ le32 n ++ X) :
    readLE32 file (pos + 4) = n % M32 := by
  have h := readLE32_drop file pos 4
  rw [hdrop] at h
  rw [← h]
  simp only [List.append_assoc]
  rw [readLE32_skip4i fcc00dc _ rfl 4 0 rfl]
  exact le32_decode _ _

theorem scanFrames_stop_partial (file frag : List Nat) (fuel pos n : Nat)
    (hdrop : file.drop pos = fcc00dc ++ le32 n ++ frag)
    (hfrag : frag.length < n) (hfit : pos + 8 + n < M32) :
    scanFrames file fuel pos = 0 := by
  have hlen0 := length_of_drop file (fcc00dc ++ le32 n ++ frag) pos hdrop
    (by simp [fcc00dc, le32])
  have hlen : file.length = pos + 8 + frag.length := by
    simp only [List.length_append, fcc00dc, le32, List.length_cons,
      List.length_nil] at hlen0
    omega
  have htag := getD_of_drop_cons file (le32 n ++ frag) pos 48 48 100 99
    (by simpa [fcc00dc] using hdrop)
  have hcs := readLE32_of_drop file frag pos n hdrop
  have hnM : n % M32 = n := Nat.mod_eq_of_lt (by omega)
  have hc1 : (pos + 8) % M32 ≤ file.length := by
    rw [Nat.mod_eq_of_lt (show pos + 8 < M32 by omega)]
    omega
  have hr1 : min 4 (file.length - pos) = 4 := by omega
  have hr2 : min 4 (file.length - (pos + 4)) = 4 := by omega
  have hbreak : file.length < (pos + 8 + n) % M32 := by
    rw [Nat.mod_eq_of_lt hfit]
    omega
  cases fuel with
  | zero => rfl
  | succ m =>
      unfold scanFrames
      rw [if_pos hc1, if_pos hr1, if_pos htag, if_pos hr2]
      simp only [hcs, hnM]
      rw [if_pos hbreak]

theorem scanFrames_chunk_step (file d rest : List Nat) (fuel pos : Nat)
    (hdrop : file.drop pos = chunkBytes d ++ rest)
    (hfit : file.length + 8 < M32) :
    scanFrames file (fuel + 1) pos
      = 1 + scanFrames file fuel (pos + chunkSpan d) := by
  have hshape : file.drop pos
      = fcc00dc ++ le32 d.length
          ++ (d ++ (if d.length % 2 ≠ 0 then [0] else []) ++ rest) := by
    rw [hdrop]
    simp [chunkBytes, List.append_assoc]
  have hlen0 := length_of_drop file (chunkBytes d ++ rest) pos hdrop
    (by simp [chunkBytes, fcc00dc, le32])
  have hlen : file.length = pos + chunkSpan d + rest.length := by
    rw [List.length_append, chunkBytes_length] at hlen0
    omega
  have hspan : chunkSpan d = 8 + d.length + d.length % 2 := rfl
  have htag := getD_of_drop_cons file
    (le32 d.length ++ (d ++ (if d.length % 2 ≠ 0 then [0] else []) ++ rest))
    pos 48 48 100 99 (by simpa [fcc00dc] using hshape)
  have hcs := readLE32_of_drop file _ pos d.length hshape
  have hMnum : M32 = 4294967296 := rfl
  have hdM : d.length % M32 = d.length := Nat.mod_eq_of_lt (by omega)
  have hc1 : (pos + 8) % M32 ≤ file.length := by
    rw [Nat.mod_eq_of_lt (show pos + 8 < M32 by omega)]
    omega
  have hr1 : min 4 (file.length - pos) = 4 := by omega
  have hr2 : min 4 (file.length - (pos + 4)) = 4 := by omega
  have hnobreak : ¬ file.length < (pos + 8 + d.length) % M32 := by
    rw [Nat.mod_eq_of_lt (show pos + 8 + d.length < M32 by omega)]
    omega
  have hposEq : (if d.length % 2 = 1
        then ((pos + 8 + d.length) % M32 + 1) % M32
        else (pos + 8 + d.length) % M32)
      = pos + chunkSpan d := by
    by_cases hp : d.length % 2 = 1
    · rw [if_pos hp,
        Nat.mod_eq_of_lt (show pos + 8 + d.length < M32 by omega),
        Nat.mod_eq_of_lt (show pos + 8 + d.length + 1 < M32 by omega),
        hspan]
      omega
    · rw [if_neg hp,
        Nat.mod_eq_of_lt (show pos + 8 + d.length < M32 by omega), hspan]
      omega
  conv_lhs => rw [scanFrames]
  rw [if_pos hc1, if_pos hr1, if_pos htag, if_pos hr2]
  simp only [hcs, hdM]
  rw [if_neg hnobreak, hposEq]

theorem scanFrames_complete (file : List Nat)
    (hfit : file.length + 8 < M32) :
    ∀ (chunks : List (List Nat)) (frag : List Nat) (pos fuel : Nat),
      file.drop pos = moviBytes chunks ++ frag →
      chunks.length + 1 ≤ fuel →
      (∀ f, scanFrames file f (pos + frameSum chunks) = 0) →
      scanFrames file fuel pos = chunks.length := by
  intro chunks
  induction chunks with
  | nil =>
      intro frag pos fuel hdrop hfuel hstop
      have := hstop fuel
      simpa [frameSum] using this
  | cons d rest ih =>
      intro frag pos fuel hdrop hfuel hstop
      obtain ⟨f, rfl⟩ : ∃ f, fuel = f + 1 := by
        cases fuel with
        | zero => omega
        | succ m => exact ⟨m, rfl⟩
      rw [moviBytes_cons, List.append_assoc] at hdrop
      rw [scanFrames_chunk_step file d (moviBytes rest ++ frag) f pos hdrop
        hfit]
      have hdrop2 : file.drop (pos + chunkSpan d)
          = moviBytes rest ++ frag := by
        have h1 : file.drop (pos + chunkSpan d)
            = (file.drop pos).drop (chunkSpan d) := by
          rw [List.drop_drop]
        rw [h1, hdrop, ← chunkBytes_length d]
        exact List.drop_left _ _
      have hstop2 : ∀ f2, scanFrames file f2
          (pos + chunkSpan d + frameSum rest) = 0 := by
        intro f2
        have := hstop f2
        rw [frameSum_cons] at this
        rw [show pos + chunkSpan d + frameSum rest
          = pos + (chunkSpan d + frameSum rest) from by omega]
        exact this
      rw [ih frag (pos + chunkSpan d) f hdrop2 (by
        simp only [List.length_cons] at hfuel
        omega) hstop2]
      simp only [List.length_cons]
      omega
theorem unfinalizedFile_length (width height fps : Nat)
    (frames : List (List Nat)) :
    (unfinalizedFile width height fps frames).length
      = 224 + frameSum frames := by
  simp [unfinalizedFile, headerBytes_length, moviBytes_length]

theorem unfinalizedFile_read48 (width height fps : Nat)
    (frames : List (List Nat)) (T : Nat) (hT : 52 ≤ T) :
    readLE32 ((unfinalizedFile width height fps frames).take T) 48 = 0 := by
  rw [readLE32_take _ _ _ (by omega)]
  unfold unfinalizedFile
  rw [readLE32_append_lt _ _ _ (by rw [headerBytes_length]; omega)]
  exact headerBytes_read_totalFrames width height fps

theorem tryRepairAVI_of_scan (F : List Nat) (n : Nat)
    (hlen : 224 ≤ F.length) (h48 : readLE32 F 48 = 0)
    (hscan : scanFrames F F.length 224 = n) :
    (n = 0 → tryRepairAVI F = .removedNoFrames) ∧
    (0 < n → n < M32 →
      tryRepairAVI F
        = .repaired
            (setLE32 (setLE32 (setLE32 (setLE32 F 4 (sub32 F.length 8))
              216 (sub32 F.length 220)) 48 n) 140 n) n
      ∧ readLE32 (setLE32 (setLE32 (setLE32 (setLE32 F 4
            (sub32 F.length 8)) 216 (sub32 F.length 220)) 48 n) 140 n) 48
          = n
      ∧ readLE32 (setLE32 (setLE32 (setLE32 (setLE32 F 4
            (sub32 F.length 8)) 216 (sub32 F.length 220)) 48 n) 140 n) 140
          = n) := by
  constructor
  · intro h0
    unfold tryRepairAVI
    rw [if_neg (by omega), if_neg (by simp [h48])]
    simp only [hscan, h0]
    rfl
  · intro hpos hnM
    refine ⟨?_, ?_, ?_⟩
    · unfold tryRepairAVI
      rw [if_neg (by omega), if_neg (by simp [h48])]
      simp only [hscan]
      rw [if_neg (by omega)]
    · rw [readLE32_setLE32_disjoint _ _ _ _ (by omega),
        readLE32_setLE32_self _ _ _
          (by simp only [length_setLE32]; omega)]
      exact Nat.mod_eq_of_lt hnM
    · rw [readLE32_setLE32_self _ _ _
        (by simp only [length_setLE32]; omega)]
      exact Nat.mod_eq_of_lt hnM
theorem truncated_drop224 (width height fps : Nat)
    (frames : List (List Nat)) (T : Nat) :
    ((unfinalizedFile width height fps frames).take T).drop 224
      = (moviBytes frames).take (T - 224) := by
  rw [List.drop_take]
  have h2 : (unfinalizedFile width height fps frames).drop 224
      = moviBytes frames := by
    unfold unfinalizedFile
    rw [show (224:Nat) = (headerBytes width height fps).length from
      (headerBytes_length width height fps).symm]
    exact List.drop_left _ _
  rw [h2]

theorem take_chunk_mid (dK : List Nat) (rest : List Nat) (t : Nat)
    (ht : t ≤ dK.length) :
    (chunkBytes dK ++ rest).take (8 + t)
      = fcc00dc ++ le32 dK.length ++ dK.take t := by
  have l2 : (fcc00dc : List Nat).length = 4 := rfl
  have l3 : (le32 dK.length).length = 4 := rfl
  unfold chunkBytes
  simp only [List.append_assoc]
  rw [List.take_append_eq_append_take,
    List.take_of_length_le (by rw [l2]; omega), l2,
    show 8 + t - 4 = 4 + t from by omega]
  rw [List.take_append_eq_append_take,
    List.take_of_length_le (by rw [l3]; omega), l3,
    show 4 + t - 4 = t from by omega]
  rw [List.take_append_eq_append_take,
    show t - dK.length = 0 from by omega]
  simp [List.append_assoc]

theorem scan_truncated_inside (width height fps : Nat)
    (A B : List (List Nat)) (dK : List Nat) (t : Nat) (ht : t < dK.length)
    (hfit : (unfinalizedFile width height fps (A ++ dK :: B)).length + 8
      < M32) :
    scanFrames
      ((unfinalizedFile width height fps (A ++ dK :: B)).take
        (232 + frameSum A + t))
      ((unfinalizedFile width height fps (A ++ dK :: B)).take
        (232 + frameSum A + t)).length 224
    = A.length := by
  have hFlen : (unfinalizedFile width height fps (A ++ dK :: B)).length
      = 224 + frameSum A + chunkSpan dK + frameSum B := by
    rw [unfinalizedFile_length, frameSum_append, frameSum_cons]
    ring
  have hspan : 8 + dK.length ≤ chunkSpan dK := chunkSpan_ge dK
  have hTle : 232 + frameSum A + t
      ≤ (unfinalizedFile width height fps (A ++ dK :: B)).length := by
    omega
  have hFTlen : ((unfinalizedFile width height fps (A ++ dK :: B)).take
      (232 + frameSum A + t)).length = 232 + frameSum A + t := by
    rw [List.length_take]
    omega
  have l1 : (moviBytes A).length = frameSum A := moviBytes_length A
  have hdrop : ((unfinalizedFile width height fps (A ++ dK :: B)).take
      (232 + frameSum A + t)).drop 224
      = moviBytes A ++ (fcc00dc ++ le32 dK.length ++ dK.take t) := by
    rw [truncated_drop224,
      show 232 + frameSum A + t - 224 = frameSum A + (8 + t) from by omega,
      moviBytes_append, moviBytes_cons,
      List.take_append_eq_append_take,
      List.take_of_length_le (by rw [l1]; omega), l1,
      show frameSum A + (8 + t) - frameSum A = 8 + t from by omega]
    rw [take_chunk_mid dK (moviBytes B) t (by omega)]
  have hdropStop : ((unfinalizedFile width height fps (A ++ dK :: B)).take
      (232 + frameSum A + t)).drop (224 + frameSum A)
      = fcc00dc ++ le32 dK.length ++ dK.take t := by
    rw [← List.drop_drop, hdrop, show frameSum A = (moviBytes A).length from
      l1.symm]
    exact List.drop_left _ _
  have hfitFT : ((unfinalizedFile width height fps (A ++ dK :: B)).take
      (232 + frameSum A + t)).length + 8 < M32 := by
    rw [hFTlen]
    omega
  apply scanFrames_complete _ hfitFT A
    (fcc00dc ++ le32 dK.length ++ dK.take t) 224 _ ?_ ?_ ?_
  · rw [hdrop]
  · have hlow := frameSum_lower A
    rw [hFTlen]
    omega
  · intro f
    apply scanFrames_stop_partial _ (dK.take t) f (224 + frameSum A)
      dK.length
    · rw [hdropStop]
    · rw [List.length_take]
      omega
    · omega

theorem scan_truncated_boundary (width height fps : Nat)
    (A B : List (List Nat)) (dK : List Nat)
    (hfit : (unfinalizedFile width height fps (A ++ dK :: B)).length + 8
      < M32) :
    scanFrames
      ((unfinalizedFile width height fps (A ++ dK :: B)).take
        (224 + frameSum A + chunkSpan dK))
      ((unfinalizedFile width height fps (A ++ dK :: B)).take
        (224 + frameSum A + chunkSpan dK)).length 224
    = A.length + 1 := by
  have hFlen : (unfinalizedFile width height fps (A ++ dK :: B)).length
      = 224 + frameSum A + chunkSpan dK + frameSum B := by
    rw [unfinalizedFile_length, frameSum_append, frameSum_cons]
    ring
  have hspan : 8 + dK.length ≤ chunkSpan dK := chunkSpan_ge dK
  have hTle : 224 + frameSum A + chunkSpan dK
      ≤ (unfinalizedFile width height fps (A ++ dK :: B)).length := by
    omega
  have hFTlen : ((unfinalizedFile width height fps (A ++ dK :: B)).take
      (224 + frameSum A + chunkSpan dK)).length
      = 224 + frameSum A + chunkSpan dK := by
    rw [List.length_take]
    omega
  have l1 : (moviBytes A).length = frameSum A := moviBytes_length A
  have lc : (chunkBytes dK).length = chunkSpan dK := chunkBytes_length dK
  have hdrop : ((unfinalizedFile width height fps (A ++ dK :: B)).take
      (224 + frameSum A + chunkSpan dK)).drop 224
      = moviBytes (A ++ [dK]) := by
    rw [truncated_drop224,
      show 224 + frameSum A + chunkSpan dK - 224
        = frameSum A + chunkSpan dK from by omega,
      moviBytes_append, moviBytes_cons,
      List.take_append_eq_append_take,
      List.take_of_length_le (by rw [l1]; omega), l1,
      show frameSum A + chunkSpan dK - frameSum A = chunkSpan dK from by
        omega,
      List.take_append_eq_append_take,
      List.take_of_length_le (by rw [lc]), lc,
      show chunkSpan dK - chunkSpan dK = 0 from by omega]
    rw [moviBytes_append]
    simp [moviBytes]
  have hfitFT : ((unfinalizedFile width height fps (A ++ dK :: B)).take
      (224 + frameSum A + chunkSpan dK)).length + 8 < M32 := by
    rw [hFTlen]
    omega
  have hcount : (A ++ [dK]).length = A.length + 1 := by simp
  have h1dK : frameSum [dK] = chunkSpan dK := by simp [frameSum]
  have hfit2 : 224 + frameSum A + chunkSpan dK + frameSum B + 8 < M32 := by
    rw [hFlen] at hfit
    exact hfit
  rw [← hcount]
  apply scanFrames_complete _ hfitFT (A ++ [dK]) [] 224 _ ?_ ?_ ?_
  · rw [hdrop]
    simp
  · have hlow := frameSum_lower (A ++ [dK])
    rw [frameSum_append, h1dK] at hlow
    simp only [List.length_append, List.length_cons, List.length_nil]
      at hlow
    rw [hFTlen, hcount]
    omega
  · intro f
    apply scanFrames_stop_end
    · rw [hFTlen, frameSum_append, h1dK]
      omega
    · rw [frameSum_append, h1dK]
      unfold M32 at hfit2 ⊢
      omega

-- ### Claim C1 (amended): repair of truncated files

/-- C1 (amended): take an unfinalized AVI file written as header plus
frames `A ++ dK :: B` (so frame `K = A.length + 1` is `dK`; the
total-frame-count field at offset 48 is zero and the file has the full
224-byte header).  If the file is truncated at a byte offset inside frame
K's payload (`224 + frameSum A + 8 + t` with `t < dK.length`), the
forward scan of `tryRepairAVI` from byte 224 counts exactly `K − 1`
complete frames; when `K ≥ 2` the file is repaired and both frame-count
fields are patched to `K − 1`, but when `K = 1` the scan finds zero
complete frames and `tryRepairAVI` deletes the file instead of patching
it.  If the file is truncated exactly at a chunk boundary (after frame
K's pad byte, at `224 + frameSum A + chunkSpan dK`), the scan counts and
patches exactly `K` frames. -/
theorem C1_repair_truncated (width height fps : Nat)
    (A B : List (List Nat)) (dK : List Nat)
    (hfit : (unfinalizedFile width height fps (A ++ dK :: B)).length + 8
      < M32) :
    (∀ t, t < dK.length →
      scanFrames
          ((unfinalizedFile width height fps (A ++ dK :: B)).take
            (232 + frameSum A + t))
          ((unfinalizedFile width height fps (A ++ dK :: B)).take
            (232 + frameSum A + t)).length 224
        = A.length
      ∧ (A = [] →
          tryRepairAVI ((unfinalizedFile width height fps (A ++ dK :: B)).take
            (232 + frameSum A + t)) = .removedNoFrames)
      ∧ (0 < A.length →
          repairCount (tryRepairAVI
              ((unfinalizedFile width height fps (A ++ dK :: B)).take
                (232 + frameSum A + t)))
            = some A.length
          ∧ (repairFile (tryRepairAVI
              ((unfinalizedFile width height fps (A ++ dK :: B)).take
                (232 + frameSum A + t)))).map (fun p => readLE32 p 48)
            = some A.length
          ∧ (repairFile (tryRepairAVI
              ((unfinalizedFile width height fps (A ++ dK :: B)).take
                (232 + frameSum A + t)))).map (fun p => readLE32 p 140)
            = some A.length)) ∧
    (scanFrames
        ((unfinalizedFile width height fps (A ++ dK :: B)).take
          (224 + frameSum A + chunkSpan dK))
        ((unfinalizedFile width height fps (A ++ dK :: B)).take
          (224 + frameSum A + chunkSpan dK)).length 224
      = A.length + 1
    ∧ repairCount (tryRepairAVI
        ((unfinalizedFile width height fps (A ++ dK :: B)).take
          (224 + frameSum A + chunkSpan dK)))
      = some (A.length + 1)
    ∧ (repairFile (tryRepairAVI
        ((unfinalizedFile width height fps (A ++ dK :: B)).take
          (224 + frameSum A + chunkSpan dK)))).map (fun p => readLE32 p 48)
      = some (A.length + 1)
    ∧ (repairFile (tryRepairAVI
        ((unfinalizedFile width height fps (A ++ dK :: B)).take
          (224 + frameSum A + chunkSpan dK)))).map (fun p => readLE32 p 140)
      = some (A.length + 1)) := by
  have hFlen : (unfinalizedFile width height fps (A ++ dK :: B)).length
      = 224 + frameSum A + chunkSpan dK + frameSum B := by
    rw [unfinalizedFile_length, frameSum_append, frameSum_cons]
    ring
  have hspan : 8 + dK.length ≤ chunkSpan dK := chunkSpan_ge dK
  have hlowA := frameSum_lower A
  have hAM : A.length + 1 < M32 := by
    unfold M32 at hfit ⊢
    omega
  constructor
  · intro t ht
    have hscan := scan_truncated_inside width height fps A B dK t ht hfit
    have hFTlen : ((unfinalizedFile width height fps (A ++ dK :: B)).take
        (232 + frameSum A + t)).length = 232 + frameSum A + t := by
      rw [List.length_take]
      omega
    have h48 := unfinalizedFile_read48 width height fps (A ++ dK :: B)
      (232 + frameSum A + t) (by omega)
    have hchar := tryRepairAVI_of_scan _ A.length (by rw [hFTlen]; omega)
      h48 hscan
    refine ⟨hscan, ?_, ?_⟩
    · intro hA
      exact hchar.1 (by simp [hA])
    · intro hApos
      obtain ⟨heq, h48r, h140r⟩ := hchar.2 hApos (by omega)
      rw [heq]
      refine ⟨rfl, ?_, ?_⟩
      · simp only [repairFile, Option.map_some']
        rw [h48r]
      · simp only [repairFile, Option.map_some']
        rw [h140r]
  · have hscan := scan_truncated_boundary width height fps A B dK hfit
    have hFTlen : ((unfinalizedFile width height fps (A ++ dK :: B)).take
        (224 + frameSum A + chunkSpan dK)).length
        = 224 + frameSum A + chunkSpan dK := by
      rw [List.length_take]
      omega
    have h48 := unfinalizedFile_read48 width height fps (A ++ dK :: B)
      (224 + frameSum A + chunkSpan dK) (by omega)
    have hchar := tryRepairAVI_of_scan _ (A.length + 1)
      (by rw [hFTlen]; omega) h48 hscan
    obtain ⟨heq, h48r, h140r⟩ := hchar.2 (by omega) hAM
    rw [heq]
    refine ⟨hscan, rfl, ?_, ?_⟩
    · simp only [repairFile, Option.map_some']
      rw [h48r]
    · simp only [repairFile, Option.map_some']
      rw [h140r]

/-- Witness for C1 (amended): two frames of sizes 3 and 4, truncated 2
bytes into the second frame's payload (`K = 2`), and the same file
truncated at the second frame's chunk boundary. -/
theorem C1_repair_truncated_witness :
    ((unfinalizedFile 640 480 10 ([[1,2,3]] ++ [7,7,7,7] :: [])).length + 8
      < M32) ∧
    (2 < ([7,7,7,7] : List Nat).length ∧
     scanFrames
        ((unfinalizedFile 640 480 10 ([[1,2,3]] ++ [7,7,7,7] :: [])).take
          (232 + frameSum [[1,2,3]] + 2))
        ((unfinalizedFile 640 480 10 ([[1,2,3]] ++ [7,7,7,7] :: [])).take
          (232 + frameSum [[1,2,3]] + 2)).length 224
      = ([[1,2,3]] : List (List Nat)).length ∧
     repairCount (tryRepairAVI
        ((unfinalizedFile 640 480 10 ([[1,2,3]] ++ [7,7,7,7] :: [])).take
          (232 + frameSum [[1,2,3]] + 2)))
      = some ([[1,2,3]] : List (List Nat)).length ∧
     repairCount (tryRepairAVI
        ((unfinalizedFile 640 480 10 ([[1,2,3]] ++ [7,7,7,7] :: [])).take
          (224 + frameSum [[1,2,3]] + chunkSpan [7,7,7,7])))
      = some (([[1,2,3]] : List (List Nat)).length + 1)) := by
  have hfit : (unfinalizedFile 640 480 10
      ([[1,2,3]] ++ [7,7,7,7] :: [])).length + 8 < M32 := by
    rw [unfinalizedFile_length,
      show frameSum ([[1,2,3]] ++ [7,7,7,7] :: []) = 24 from rfl]
    norm_num [M32]
  have h := C1_repair_truncated 640 480 10 [[1,2,3]] [] [7,7,7,7] hfit
  have hin := h.1 2 (by norm_num)
  refine ⟨hfit, by norm_num, hin.1, ?_, h.2.2.1⟩
  exact (hin.2.2 (by norm_num)).1

set_option maxRecDepth 40000 in
/-- Counterexample to C1 as stated: a one-frame file (`K = 1`, frame size
4) truncated 2 bytes into the frame's payload.  The scan counts `K − 1 =
0` complete frames, and `tryRepairAVI` deletes the file (returns the
removed-no-frames outcome) instead of patching the frame-count fields to
`K − 1 = 0` as the claim asserts. -/
theorem C1_repair_counterexample :
    tryRepairAVI ((unfinalizedFile 640 480 10 [[9,9,9,9]]).take 234)
      = RepairResult.removedNoFrames
    ∧ repairCount (tryRepairAVI
        ((unfinalizedFile 640 480 10 [[9,9,9,9]]).take 234)) = none := by
  constructor <;> rfl

-- ### Recording lifecycle: `startRecording`, `stopRecording`, `update`

theorem writeAVIHeader_misc (s : Recorder) (w h f : Nat) :
    (writeAVIHeader s w h f).isRecording = s.isRecording ∧
    (writeAVIHeader s w h f).fps = s.fps ∧
    (writeAVIHeader s w h f).frameInterval = s.frameInterval ∧
    (writeAVIHeader s w h f).startTime = s.startTime ∧
    (writeAVIHeader s w h f).lastFrameTime = s.lastFrameTime ∧
    (writeAVIHeader s w h f).frameCount = s.frameCount ∧
    (writeAVIHeader s w h f).currentFilename = s.currentFilename ∧
    (writeAVIHeader s w h f).width = s.width ∧
    (writeAVIHeader s w h f).height = s.height ∧
    (writeAVIHeader s w h f).frameIndex = s.frameIndex ∧
    (writeAVIHeader s w h f).maxFrames = s.maxFrames := by
  simp [writeAVIHeader, write32LE, writeFCC, headerSegB_misc,
    headerSegC_misc, headerSegD_misc]

/-- A camera frame as handed to the recorder: JPEG bytes plus the
dimensions reported by the driver. -/
structure Frame where
  data : List Nat
  width : Nat
  height : Nat
deriving DecidableEq

/-- The external conditions `startRecording` consults: whether the SD
card is initialised, the probe-frame capture result (`none` = capture
failure), whether creating the file succeeds, whether the PSRAM/heap
index allocation succeeds, the current `millis()` clock, and the
timestamp-derived filename. -/
structure StartEnv where
  sdInit : Bool
  probe : Option Frame
  openOK : Bool
  allocOK : Bool
  now : Nat
  filename : String
deriving DecidableEq

/-- Persistent side effects of a `startRecording` call: whether a
recording file was created and left on storage, and whether an acquired
probe frame was left unreleased. -/
structure StartEffects where
  fileLeft : Bool
  frameLeaked : Bool
deriving DecidableEq

/-- `startRecording`: reject when already recording or the SD card is
unavailable; capture a probe frame to learn the dimensions (assigning
`_width`/`_height` as the code does, before the file is opened); fail
cleanly when the file cannot be created (releasing the probe frame);
otherwise clamp `fps` to [1,15], reset the counters, allocate the frame
index (non-fatally degrading to no index), emit the header, append the
probe frame, record the timestamps and mark the session active.
`writeAVIHeader` always returns true in the C++ code, so its failure
branch is dead and not modelled.  Directory creation and the
timestamp-vs-millis filename choice have no effect on the recorder state
and are summarised by `env.filename`. -/
def startRecording (env : StartEnv) (fps : Nat) (s : Recorder) :
    Recorder × Bool × StartEffects :=
  if s.isRecording then (s, false, ⟨false, false⟩)
  else if !env.sdInit then (s, false, ⟨false, false⟩)
  else
    match env.probe with
    | none => (s, false, ⟨false, false⟩)
    | some fb =>
        let s := { s with width := fb.width, height := fb.height }
        if !env.openOK then (s, false, ⟨false, false⟩)
        else
          let fpsC := if fps < 1 then 1 else if fps > 15 then 15 else fps
          let s := { s with
            currentFilename := env.filename
            fps := fpsC
            frameInterval := 1000 / fpsC
            frameCount := 0
            totalBytes := 0
            file := []
            maxFrames := 300 * fpsC + 10
            frameIndex := if env.allocOK then some [] else none }
          let s := writeAVIHeader s fb.width fb.height fpsC
          let s := writeFrame s fb.data
          let s := { s with
            startTime := env.now
            lastFrameTime := env.now
            isRecording := true }
          (s, true, ⟨true, false⟩)

/-- What `stopRecording` did to the file on storage. -/
inductive StopAction where
  | noSession
  | deleted
  | finalized (finalBytes : List Nat)
deriving DecidableEq

/-- `stopRecording`: fail when no session is active; otherwise clear the
active flag, then finalize when at least one frame was written, or — for
a header-only file — free the index, close and delete the file and clear
the filename.  Returns true in both the finalize and the discard path. -/
def stopRecording (s : Recorder) : Recorder × Bool × StopAction :=
  if !s.isRecording then (s, false, .noSession)
  else
    let s := { s with isRecording := false }
    if 0 < s.frameCount then
      ((finalizeAVI s).1, true, .finalized (finalizeAVI s).2)
    else
      ({ s with frameIndex := none, file := [], currentFilename := "" },
        true, .deleted)

/-- The recorder state after `stopRecording`, as invoked from `update`. -/
def stopRecordingState (s : Recorder) : Recorder := (stopRecording s).1

/-- `update`: no-op when inactive; stop when the elapsed time since
`_startTime` reaches `MAX_RECORDING_SECONDS * 1000 = 300000` ms; stop
when free SD space drops below `MIN_FREE_SD_MB_FOR_RECORDING` megabytes
(`50 * 1024 * 1024 = 52428800` bytes); return when less than
`_frameInterval` ms have passed since the last frame; otherwise set
`_lastFrameTime = now` and capture: a failed capture (`fb = none`) is
tolerated and skipped, a successful one is appended.  `millis()`
subtraction is `unsigned long`; the model uses truncated `Nat`
subtraction, which coincides for the monotone clocks supplied here. -/
def update (now freeSpace : Nat) (fb : Option (List Nat)) (s : Recorder) :
    Recorder :=
  if !s.isRecording then s
  else if 300000 ≤ now - s.startTime then stopRecordingState s
  else if freeSpace < 52428800 then stopRecordingState s
  else if now - s.lastFrameTime < s.frameInterval then s
  else
    let s := { s with lastFrameTime := now }
    match fb with
    | none => s
    | some d => writeFrame s d

theorem idx1Body_isRecording (entries : List FrameEntry) (n : Nat)
    (s : Recorder) :
    (idx1Body entries n s).isRecording = s.isRecording := by
  induction n with
  | zero => rfl
  | succ m ih =>
      unfold idx1Body at ih ⊢
      rw [List.range_succ, List.foldl_append]
      simp only [List.foldl_cons, List.foldl_nil]
      simp [idx1Step, write32LE, writeFCC, ih]

theorem finalizeAVI_isRecording (s : Recorder) :
    ((finalizeAVI s).1).isRecording = s.isRecording := by
  unfold finalizeAVI
  by_cases hc : s.frameIndex.isSome ∧ 0 < s.frameCount
  · simp only [if_pos hc]
    simp [idx1Body_isRecording, write32LE, writeFCC]
  · simp only [if_neg hc]

theorem stopRecordingState_isRecording (s : Recorder)
    (h : s.isRecording = true) :
    (stopRecordingState s).isRecording = false := by
  unfold stopRecordingState stopRecording
  rw [h]
  by_cases hc : 0 < s.frameCount
  · simp only [Bool.not_true, Bool.false_eq_true, if_false, if_pos hc]
    rw [finalizeAVI_isRecording]
  · simp only [Bool.not_true, Bool.false_eq_true, if_false, if_neg hc]
-- ### Claim C9: zero-frame discard

/-- C9: stopping an active session in which zero frames were ever written
closes and deletes the (header-only) file instead of finalizing it or
leaving it behind, releases the index buffer, clears the session state
(active flag, filename), and still returns success. -/
theorem C9_zero_frame_discard (s : Recorder)
    (hrec : s.isRecording = true) (h0 : s.frameCount = 0) :
    stopRecording s
      = ({ s with
            isRecording := false
            frameIndex := none
            file := []
            currentFilename := "" }, true, StopAction.deleted) := by
  unfold stopRecording
  rw [hrec]
  simp only [Bool.not_true, Bool.false_eq_true, if_false]
  rw [if_neg (by simp [h0])]

/-- Witness for C9 on a freshly-activated recorder with no frames. -/
theorem C9_zero_frame_discard_witness :
    ({ initRecorder with isRecording := true } : Recorder).isRecording
        = true ∧
    ({ initRecorder with isRecording := true } : Recorder).frameCount = 0 ∧
    stopRecording { initRecorder with isRecording := true }
      = ({ { initRecorder with isRecording := true } with
            isRecording := false
            frameIndex := none
            file := []
            currentFilename := "" }, true, StopAction.deleted) :=
  ⟨rfl, rfl,
   C9_zero_frame_discard { initRecorder with isRecording := true } rfl rfl⟩

-- ### Claim C6: the duration guard

/-- C6: with `MAX_RECORDING_SECONDS = 300` and free storage at or above
the 50 MB floor, an `update` call on an active session invokes
`stopRecording` exactly when the elapsed time since `_startTime` has
reached 300000 ms, and never stops the session earlier (the session is
still recording after any earlier `update`, whatever the capture result);
the invoked stop really deactivates the session. -/
theorem C6_duration_guard (s : Recorder) (now freeSpace : Nat)
    (fb : Option (List Nat)) (hrec : s.isRecording = true)
    (hspace : 52428800 ≤ freeSpace) :
    (300000 ≤ now - s.startTime →
      update now freeSpace fb s = stopRecordingState s) ∧
    (now - s.startTime < 300000 →
      (update now freeSpace fb s).isRecording = true) ∧
    (stopRecordingState s).isRecording = false := by
  refine ⟨?_, ?_, stopRecordingState_isRecording s hrec⟩
  · intro h
    unfold update
    rw [hrec]
    simp only [Bool.not_true, Bool.false_eq_true, if_false]
    rw [if_pos h]
  · intro h
    unfold update
    rw [hrec]
    simp only [Bool.not_true, Bool.false_eq_true, if_false]
    rw [if_neg (by omega), if_neg (by omega)]
    by_cases hrate : now - s.lastFrameTime < s.frameInterval
    · rw [if_pos hrate]
      exact hrec
    · rw [if_neg hrate]
      cases fb with
      | none => rfl
      | some d => rw [(writeFrame_misc _ d).1]

/-- Witness for C6 at a concrete recorder and clock values. -/
theorem C6_duration_guard_witness :
    (({ initRecorder with isRecording := true } : Recorder).isRecording
        = true ∧ (52428800:Nat) ≤ 52428800) ∧
    ((300000 ≤ 300000 - ({ initRecorder with isRecording := true }
          : Recorder).startTime →
      update 300000 52428800 none { initRecorder with isRecording := true }
        = stopRecordingState { initRecorder with isRecording := true }) ∧
     (300000 - ({ initRecorder with isRecording := true }
          : Recorder).startTime < 300000 →
      (update 300000 52428800 none
        { initRecorder with isRecording := true }).isRecording = true) ∧
     (stopRecordingState
        { initRecorder with isRecording := true }).isRecording = false) :=
  ⟨⟨rfl, by norm_num⟩,
   C6_duration_guard { initRecorder with isRecording := true } 300000
     52428800 none rfl (by norm_num)⟩

-- ### Claim C7 (amended): failure paths of `startRecording`

/-- C7 (amended): whenever `startRecording` fails — a session is already
active, storage is unavailable, the probe capture fails, or the file
cannot be created — no recording file is created or left behind, an
acquired probe frame is released, the session stays inactive, and the
recorder state is unchanged except for the scratch `_width`/`_height`
fields, which the code overwrites from the probe frame before attempting
to open the file (and which carry no meaning while no session is
active). -/
theorem C7_start_failure (env : StartEnv) (fps : Nat) (s : Recorder)
    (hfail : (startRecording env fps s).2.1 = false) :
    (startRecording env fps s).2.2.fileLeft = false ∧
    (startRecording env fps s).2.2.frameLeaked = false ∧
    (startRecording env fps s).1
      = { s with width := (startRecording env fps s).1.width,
                 height := (startRecording env fps s).1.height } ∧
    (startRecording env fps s).1.isRecording = s.isRecording := by
  unfold startRecording at hfail ⊢
  by_cases h1 : s.isRecording
  · simp only [if_pos h1]
    refine ⟨?_, ?_, ?_, ?_⟩ <;> trivial
  · simp only [if_neg h1] at hfail ⊢
    by_cases h2 : env.sdInit
    · simp only [h2, Bool.not_true, Bool.false_eq_true, if_false]
        at hfail ⊢
      cases hp : env.probe with
      | none =>
          simp only [hp] at hfail ⊢
          refine ⟨?_, ?_, ?_, ?_⟩ <;> trivial
      | some fb =>
          simp only [hp] at hfail ⊢
          by_cases h3 : env.openOK
          · simp only [h3, Bool.not_true, Bool.false_eq_true, if_false]
              at hfail
            exact absurd hfail (by simp)
          · simp only [h3, Bool.not_false, if_true] at hfail ⊢
            refine ⟨?_, ?_, ?_, ?_⟩ <;> trivial
    · simp only [Bool.not_eq_true] at h2
      simp only [h2, Bool.not_false, if_true]
      refine ⟨?_, ?_, ?_, ?_⟩ <;> trivial

/-- Witness for C7 with an open-failure environment (SD present, probe
succeeds, file creation fails). -/
theorem C7_start_failure_witness :
    (startRecording ⟨true, some ⟨[1,2], 640, 480⟩, false, true, 0, "r"⟩
        10 initRecorder).2.1 = false ∧
    ((startRecording ⟨true, some ⟨[1,2], 640, 480⟩, false, true, 0, "r"⟩
        10 initRecorder).2.2.fileLeft = false ∧
     (startRecording ⟨true, some ⟨[1,2], 640, 480⟩, false, true, 0, "r"⟩
        10 initRecorder).2.2.frameLeaked = false ∧
     (startRecording ⟨true, some ⟨[1,2], 640, 480⟩, false, true, 0, "r"⟩
        10 initRecorder).1
      = { initRecorder with
            width := (startRecording
              ⟨true, some ⟨[1,2], 640, 480⟩, false, true, 0, "r"⟩
              10 initRecorder).1.width,
            height := (startRecording
              ⟨true, some ⟨[1,2], 640, 480⟩, false, true, 0, "r"⟩
              10 initRecorder).1.height } ∧
     (startRecording ⟨true, some ⟨[1,2], 640, 480⟩, false, true, 0, "r"⟩
        10 initRecorder).1.isRecording = initRecorder.isRecording) :=
  ⟨rfl,
   C7_start_failure ⟨true, some ⟨[1,2], 640, 480⟩, false, true, 0, "r"⟩
     10 initRecorder rfl⟩

/-- Counterexample to C7 as stated: with the SD card present, a probe
frame of 640×480 acquired, and file creation failing, `startRecording`
returns failure but the recorder state is not unchanged — `_width` and
`_height` were overwritten from the probe frame before the open was
attempted (0 → 640/480 here). -/
theorem C7_start_failure_counterexample :
    (startRecording ⟨true, some ⟨[1,2], 640, 480⟩, false, true, 0, "x"⟩
        10 initRecorder).2.1 = false ∧
    (startRecording ⟨true, some ⟨[1,2], 640, 480⟩, false, true, 0, "x"⟩
        10 initRecorder).1 ≠ initRecorder ∧
    (startRecording ⟨true, some ⟨[1,2], 640, 480⟩, false, true, 0, "x"⟩
        10 initRecorder).1.width = 640 ∧
    initRecorder.width = 0 := by
  refine ⟨rfl, by decide, rfl, rfl⟩
-- ### Claim C5: index-length invariant

/-- Environment of the C5 demonstration session: SD present, 2-byte probe
frame, successful open and index allocation, clock at 0. -/
def demoEnv : StartEnv :=
  ⟨true, some ⟨[0, 0], 640, 480⟩, true, true, 0, "demo.avi"⟩

/-- The recorder state right before header emission in the demonstration
session (`fps = 15`, so `frameInterval = 1000 / 15 = 66` and
`maxFrames = 300 * 15 + 10 = 4510`). -/
def demoBase : Recorder where
  isRecording := false
  fps := 15
  frameInterval := 66
  startTime := 0
  lastFrameTime := 0
  frameCount := 0
  currentFilename := "demo.avi"
  file := []
  riffSizeOffset := 0
  aviFramesOffset := 0
  strhFramesOffset := 0
  moviListSizeOffset := 0
  totalBytes := 0
  width := 640
  height := 480
  frameIndex := some []
  maxFrames := 4510

/-- The demonstration session right after `startRecording(15)`. -/
def demoStart : Recorder := (startRecording demoEnv 15 initRecorder).1

/-- One driver tick of the demonstration session: `update` at time
`66 * (i + 1)` ms with ample free space and a 2-byte captured frame. -/
def demoTick (s : Recorder) (i : Nat) : Recorder :=
  update (66 * (i + 1)) 52428800 (some [0, 0]) s

/-- The demonstration session after `k` driver ticks: frames land every
66 ms, the fastest pacing `update` allows at `fps = 15`. -/
def demoRun (k : Nat) : Recorder := (List.range k).foldl demoTick demoStart

theorem demoStart_eq :
    demoStart
      = { writeFrame (writeAVIHeader demoBase 640 480 15) [0, 0] with
            startTime := 0
            lastFrameTime := 0
            isRecording := true } := rfl

theorem demoStart_fields :
    demoStart.isRecording = true ∧ demoStart.frameInterval = 66 ∧
    demoStart.startTime = 0 ∧ demoStart.lastFrameTime = 0 ∧
    demoStart.frameCount = 1 ∧ demoStart.maxFrames = 4510 ∧
    ∃ l, demoStart.frameIndex = some l ∧ l.length = 1 := by
  obtain ⟨-, -, wf3, -, -, -, -, -, -, -, -, -, wf13⟩ :=
    writeFrame_misc (writeAVIHeader demoBase 640 480 15) [0, 0]
  obtain ⟨-, -, wh3, -, -, wh6, -, -, -, wh10, wh11⟩ :=
    writeAVIHeader_misc demoBase 640 480 15
  refine ⟨rfl, ?_, rfl, rfl, ?_, ?_, ?_⟩
  · rw [demoStart_eq]
    exact wf3.trans wh3
  · rw [demoStart_eq]
    show (writeFrame (writeAVIHeader demoBase 640 480 15) [0, 0]).frameCount
      = 1
    rw [writeFrame_frameCount, wh6]
    rfl
  · rw [demoStart_eq]
    exact wf13.trans wh11
  · rw [demoStart_eq]
    show ∃ l, (writeFrame (writeAVIHeader demoBase 640 480 15)
        [0, 0]).frameIndex = some l ∧ l.length = 1
    rw [writeFrame_frameIndex, wh10]
    exact ⟨[⟨sub32 (writeAVIHeader demoBase 640 480 15).totalBytes 224,
      ([0, 0] : List Nat).length % M32⟩], rfl, rfl⟩

theorem writeFrame_index_min (s : Recorder) (d : List Nat)
    (l : List FrameEntry) (fc mf : Nat) (hidx : s.frameIndex = some l)
    (hfc : s.frameCount = fc) (hmf : s.maxFrames = mf) :
    ∃ l2, (writeFrame s d).frameIndex = some l2 ∧
      l2.length = if fc < mf then l.length + 1 else l.length := by
  rw [writeFrame_frameIndex, hidx, hfc, hmf]
  show ∃ l2, (if fc < mf then
        some (l ++ [{ offset := sub32 s.totalBytes 224,
                      size := d.length % M32 }])
      else some l) = some l2 ∧
    l2.length = if fc < mf then l.length + 1 else l.length
  by_cases hc : fc < mf
  · rw [if_pos hc, if_pos hc]
    exact ⟨_, rfl, by simp⟩
  · rw [if_neg hc, if_neg hc]
    exact ⟨l, rfl, rfl⟩

theorem update_step (now freeSpace : Nat) (d : List Nat) (s : Recorder)
    (hrec : s.isRecording = true)
    (hdur : now - s.startTime < 300000)
    (hspace : ¬ freeSpace < 52428800)
    (hrate : ¬ now - s.lastFrameTime < s.frameInterval) :
    update now freeSpace (some d) s
      = writeFrame { s with lastFrameTime := now } d := by
  unfold update
  rw [hrec]
  simp only [Bool.not_true, Bool.false_eq_true, if_false]
  rw [if_neg (by omega), if_neg hspace, if_neg hrate]

theorem demoRun_facts : ∀ k, k ≤ 4545 →
    (demoRun k).isRecording = true ∧
    (demoRun k).frameInterval = 66 ∧
    (demoRun k).startTime = 0 ∧
    (demoRun k).lastFrameTime = 66 * k ∧
    (demoRun k).frameCount = k + 1 ∧
    (demoRun k).maxFrames = 4510 ∧
    ∃ l, (demoRun k).frameIndex = some l
      ∧ l.length = min (k + 1) 4510 := by
  intro k
  induction k with
  | zero =>
      intro _
      obtain ⟨h1, h2, h3, h4, h5, h6, l, h7, h8⟩ := demoStart_fields
      exact ⟨h1, h2, h3, by simpa using h4, h5, h6, l, h7, by simpa using h8⟩
  | succ m ih =>
      intro hm
      obtain ⟨h1, h2, h3, h4, h5, h6, l, h7, h8⟩ := ih (by omega)
      have hstep : demoRun (m + 1) = demoTick (demoRun m) m := by
        unfold demoRun
        rw [List.range_succ, List.foldl_append]
        simp only [List.foldl_cons, List.foldl_nil]
      rw [hstep]
      unfold demoTick
      rw [update_step (66 * (m + 1)) 52428800 [0, 0] (demoRun m) h1
        (by rw [h3]; omega) (by omega) (by rw [h4, h2]; omega)]
      obtain ⟨g1, g2, g3, g4, g5, g6, g7, g8, g9, g10, g11, g12, g13⟩ :=
        writeFrame_misc
          { demoRun m with lastFrameTime := 66 * (m + 1) } [0, 0]
      obtain ⟨l2, hl2, hlen2⟩ := writeFrame_index_min
        { demoRun m with lastFrameTime := 66 * (m + 1) } [0, 0] l
        (m + 1) 4510 h7 h5 h6
      refine ⟨g1.trans h1, g3.trans h2, g4.trans h3, g5, ?_, g13.trans h6,
        l2, hl2, ?_⟩
      · rw [writeFrame_frameCount]
        show (demoRun m).frameCount + 1 = m + 1 + 1
        rw [h5]
      · rw [hlen2, h8]
        by_cases hc : m + 1 < 4510
        · rw [if_pos hc]
          omega
        · rw [if_neg hc]
          omega

-- ### Claim C5 theorems

/-- C5 (amended): whenever the frame index is present, its entry count
equals `min frameCount maxFrames` and `writeFrame` preserves that
invariant; in particular, after any `writeFrame` that leaves `frameCount`
at or below the capacity `maxFrames = fps * 300 + 10`, the claimed
invariant `frameCount == length(frameIndex)` holds.  (The unamended
invariant fails once a session writes more than `maxFrames` frames —
possible at `fps = 15`, where the 66 ms interval admits up to 4546 frames
in 300 s against a 4510-entry capacity — after which `finalizeAVI`'s idx1
loop reads entries that were never recorded.) -/
theorem C5_index_invariant (s : Recorder) (d : List Nat)
    (l : List FrameEntry) (hidx : s.frameIndex = some l)
    (hlen : l.length = min s.frameCount s.maxFrames) :
    ∃ l2, (writeFrame s d).frameIndex = some l2
      ∧ l2.length
          = min (writeFrame s d).frameCount (writeFrame s d).maxFrames
      ∧ ((writeFrame s d).frameCount ≤ (writeFrame s d).maxFrames →
          (writeFrame s d).frameCount = l2.length) := by
  obtain ⟨l2, hl2, hlen2⟩ := writeFrame_index_min s d l s.frameCount
    s.maxFrames hidx rfl rfl
  have hfc := writeFrame_frameCount s d
  have hmf := (writeFrame_misc s d).2.2.2.2.2.2.2.2.2.2.2.2
  refine ⟨l2, hl2, ?_, ?_⟩
  · rw [hfc, hmf, hlen2, hlen]
    by_cases hc : s.frameCount < s.maxFrames
    · rw [if_pos hc]
      omega
    · rw [if_neg hc]
      omega
  · intro hle
    rw [hfc, hmf] at hle
    rw [hfc, hlen2, hlen]
    by_cases hc : s.frameCount < s.maxFrames
    · rw [if_pos hc]
      omega
    · rw [if_neg hc]
      omega

/-- Witness for C5 (amended) at the post-header state of a session. -/
theorem C5_index_invariant_witness :
    ((sessionBase 640 480 10 true).frameIndex = some [] ∧
     ([] : List FrameEntry).length
        = min (sessionBase 640 480 10 true).frameCount
            (sessionBase 640 480 10 true).maxFrames) ∧
    ∃ l2, (writeFrame (sessionBase 640 480 10 true) [1]).frameIndex
        = some l2
      ∧ l2.length = min (writeFrame (sessionBase 640 480 10 true)
            [1]).frameCount
          (writeFrame (sessionBase 640 480 10 true) [1]).maxFrames
      ∧ ((writeFrame (sessionBase 640 480 10 true) [1]).frameCount
            ≤ (writeFrame (sessionBase 640 480 10 true) [1]).maxFrames →
          (writeFrame (sessionBase 640 480 10 true) [1]).frameCount
            = l2.length) := by
  have hbase := sessionBase_fields 640 480 10 true
  have hidx : (sessionBase 640 480 10 true).frameIndex = some [] := by
    rw [hbase.2.2.2.2.2.2.2]
    rfl
  have hlen : ([] : List FrameEntry).length
      = min (sessionBase 640 480 10 true).frameCount
          (sessionBase 640 480 10 true).maxFrames := by
    rw [hbase.2.2.2.2.2.1, hbase.2.2.2.2.2.2.1]
    rfl
  exact ⟨⟨hidx, hlen⟩,
    C5_index_invariant (sessionBase 640 480 10 true) [1] [] hidx hlen⟩

/-- Counterexample to C5 as stated: a legitimate session at `fps = 15` —
start at time 0, then 4510 driver ticks paced at the 66 ms frame
interval, all within the 300 s limit — reaches `frameCount = 4511` while
the index holds only `maxFrames = 4510` recorded entries, so the
invariant `frameCount == length(frameIndex)` fails after the 4511th
`writeFrame`, and a subsequent `finalizeAVI` would read one entry that
was never recorded. -/
theorem C5_index_counterexample :
    (demoRun 4510).frameCount = 4511 ∧
    (demoRun 4510).frameIndex.map List.length = some 4510 := by
  obtain ⟨-, -, -, -, h5, -, l, h7, h8⟩ := demoRun_facts 4510 (by norm_num)
  refine ⟨h5, ?_⟩
  rw [h7]
  simp only [Option.map_some']
  rw [h8]
  norm_num

-- ### Directory scans: listRecordingsJSON and repairRecordings

/-- One entry yielded by the directory iterator (`openNextFile`). -/
structure DirEntry where
  name : String
  size : Nat
  isDir : Bool
deriving DecidableEq

/-- The name filter of `listRecordingsJSON`. -/
def aviName (n : String) : Bool :=
  (n.endsWith (".avi")) || (n.endsWith (".AVI"))

/-- The entry filter of `listRecordingsJSON`: plain files whose name ends
in `.avi` or `.AVI`. -/
def isAviEntry (e : DirEntry) : Bool := !e.isDir && aviName e.name

/-- The collection loop of `listRecordingsJSON`: walk the directory
stream while `count < 50`, keeping matching entries. -/
def listRecordingsCollect : List DirEntry → Nat → List DirEntry
  | [], _ => []
  | e :: rest, count =>
      if 50 ≤ count then []
      else if isAviEntry e then e :: listRecordingsCollect rest (count + 1)
      else listRecordingsCollect rest count

/-- The recordings folder `"/" + RECORDINGS_FOLDER`. -/
def recordingsFolder : String := ("/") ++ ("grabaciones")

/-- Path normalisation in `repairRecordings`: `file.name()` may yield a
full path or a bare name depending on the SDK. -/
def repairPath (name : String) : String :=
  if name.startsWith ("/") then name
  else recordingsFolder ++ ("/") ++ name

/-- The entry filter of `repairRecordings`: plain files whose normalised
path ends in `.avi` or `.AVI`. -/
def repairSelect (e : DirEntry) : Bool :=
  !e.isDir && (((repairPath e.name).endsWith (".avi"))
    || ((repairPath e.name).endsWith (".AVI")))

/-- The collection loop of `repairRecordings`: the paths it will hand to
`tryRepairAVI`, gathered while `count < 50`. -/
def repairRecordingsPaths : List DirEntry → Nat → List String
  | [], _ => []
  | e :: rest, count =>
      if 50 ≤ count then []
      else if repairSelect e then
        repairPath e.name :: repairRecordingsPaths rest (count + 1)
      else repairRecordingsPaths rest count

theorem listRecordingsCollect_eq (entries : List DirEntry) :
    ∀ c, listRecordingsCollect entries c
      = (entries.filter isAviEntry).take (50 - c) := by
  induction entries with
  | nil =>
      intro c
      rw [List.filter_nil, List.take_nil]
      rfl
  | cons e rest ih =>
      intro c
      show (if 50 ≤ c then []
          else if isAviEntry e then
            e :: listRecordingsCollect rest (c + 1)
          else listRecordingsCollect rest c)
        = ((e :: rest).filter isAviEntry).take (50 - c)
      by_cases hc : 50 ≤ c
      · rw [if_pos hc]
        have h0 : 50 - c = 0 := by omega
        rw [h0, List.take_zero]
      · rw [if_neg hc]
        by_cases hp : isAviEntry e = true
        · rw [if_pos hp, List.filter_cons_of_pos hp, ih (c + 1)]
          have h1 : 50 - c = (50 - (c + 1)) + 1 := by omega
          rw [h1, List.take_succ_cons]
        · rw [if_neg hp, List.filter_cons_of_neg hp, ih c]

theorem repairRecordingsPaths_eq (entries : List DirEntry) :
    ∀ c, repairRecordingsPaths entries c
      = ((entries.filter repairSelect).map
          (fun e => repairPath e.name)).take (50 - c) := by
  induction entries with
  | nil =>
      intro c
      rw [List.filter_nil, List.map_nil, List.take_nil]
      rfl
  | cons e rest ih =>
      intro c
      show (if 50 ≤ c then []
          else if repairSelect e then
            repairPath e.name :: repairRecordingsPaths rest (c + 1)
          else repairRecordingsPaths rest c)
        = (((e :: rest).filter repairSelect).map
            (fun e => repairPath e.name)).take (50 - c)
      by_cases hc : 50 ≤ c
      · rw [if_pos hc]
        have h0 : 50 - c = 0 := by omega
        rw [h0, List.take_zero]
      · rw [if_neg hc]
        by_cases hp : repairSelect e = true
        · rw [if_pos hp, List.filter_cons_of_pos hp, List.map_cons,
            ih (c + 1)]
          have h1 : 50 - c = (50 - (c + 1)) + 1 := by omega
          rw [h1, List.take_succ_cons]
        · rw [if_neg hp, List.filter_cons_of_neg hp, ih c]

/-- C10: both directory scans silently cap at 50 files:
`listRecordingsJSON` collects exactly the first 50 (or fewer) AVI entries
of the directory stream — never more than 50 — and `repairRecordings`
gathers the normalised paths of exactly the first 50 (or fewer) AVI
files for repair; entries beyond the cap are dropped with no error
signal. -/
theorem C10_fifty_cap (entries : List DirEntry) :
    listRecordingsCollect entries 0
      = (entries.filter isAviEntry).take 50 ∧
    (listRecordingsCollect entries 0).length ≤ 50 ∧
    repairRecordingsPaths entries 0
      = ((entries.filter repairSelect).map
          (fun e => repairPath e.name)).take 50 ∧
    (repairRecordingsPaths entries 0).length ≤ 50 := by
  have h1 := listRecordingsCollect_eq entries 0
  have h2 := repairRecordingsPaths_eq entries 0
  refine ⟨h1, ?_, h2, ?_⟩
  · rw [h1]
    exact le_trans (List.length_take_le _ _) (by norm_num)
  · rw [h2]
    exact le_trans (List.length_take_le _ _) (by norm_num)

end RecordingHandler
